import Mathlib

/-!
Shallow embedding of `src/korastats_server.py` (KoraStats MCP server).

The server exposes three tools (`list_seasons`, `list_season_matches`,
`get_match_events`).  Each tool validates its string inputs, performs one
HTTP GET through `_perform_request`, unwraps the JSON envelope and formats
a bounded text report.  We model parsed JSON values, Python truthiness,
`dict.get` (including the `AttributeError` crash on non-dict receivers,
modelled by `Option`), Python `int()` parsing, and the exact strings the
server builds.  Network I/O is modelled by an `HttpOutcome` oracle passed
to each tool; the UTC timestamp is modelled by a `now : String` parameter.
-/

/-- A parsed JSON tree, as produced by `response.json()` in the source. -/
inductive Json where
  | null : Json
  | bool : Bool → Json
  | num : Int → Json
  | str : String → Json
  | arr : List Json → Json
  | obj : List (String × Json) → Json
deriving Repr

mutual

def jsonBeq : Json → Json → Bool
  | Json.null, Json.null => true
  | Json.bool a, Json.bool b => a == b
  | Json.num a, Json.num b => a == b
  | Json.str a, Json.str b => a == b
  | Json.arr xs, Json.arr ys => jsonBeqList xs ys
  | Json.obj fs, Json.obj gs => jsonBeqFields fs gs
  | _, _ => false

def jsonBeqList : List Json → List Json → Bool
  | [], [] => true
  | x :: xs, y :: ys => jsonBeq x y && jsonBeqList xs ys
  | _, _ => false

def jsonBeqFields : List (String × Json) → List (String × Json) → Bool
  | [], [] => true
  | (k, v) :: fs, (l, w) :: gs => k == l && jsonBeq v w && jsonBeqFields fs gs
  | _, _ => false

end

mutual

def jsonBeq_refl : (a : Json) → jsonBeq a a = true
  | Json.null => rfl
  | Json.bool a => by simp [jsonBeq]
  | Json.num a => by simp [jsonBeq]
  | Json.str a => by simp [jsonBeq]
  | Json.arr xs => by simp [jsonBeq, jsonBeqList_refl xs]
  | Json.obj fs => by simp [jsonBeq, jsonBeqFields_refl fs]

def jsonBeqList_refl : (xs : List Json) → jsonBeqList xs xs = true
  | [] => rfl
  | x :: xs => by simp [jsonBeqList, jsonBeq_refl x, jsonBeqList_refl xs]

def jsonBeqFields_refl : (fs : List (String × Json)) → jsonBeqFields fs fs = true
  | [] => rfl
  | (k, v) :: fs => by simp [jsonBeqFields, jsonBeq_refl v, jsonBeqFields_refl fs]

end

mutual

def jsonBeq_eq : (a b : Json) → jsonBeq a b = true → a = b
  | Json.null, Json.null, _ => rfl
  | Json.bool a, Json.bool b, h => by simp [jsonBeq] at h; simp [h]
  | Json.num a, Json.num b, h => by simp [jsonBeq] at h; simp [h]
  | Json.str a, Json.str b, h => by simp [jsonBeq] at h; simp [h]
  | Json.arr xs, Json.arr ys, h => by
      rw [jsonBeqList_eq xs ys (by simpa [jsonBeq] using h)]
  | Json.obj fs, Json.obj gs, h => by
      rw [jsonBeqFields_eq fs gs (by simpa [jsonBeq] using h)]
  | Json.null, Json.bool _, h => by simp [jsonBeq] at h
  | Json.null, Json.num _, h => by simp [jsonBeq] at h
  | Json.null, Json.str _, h => by simp [jsonBeq] at h
  | Json.null, Json.arr _, h => by simp [jsonBeq] at h
  | Json.null, Json.obj _, h => by simp [jsonBeq] at h
  | Json.bool _, Json.null, h => by simp [jsonBeq] at h
  | Json.bool _, Json.num _, h => by simp [jsonBeq] at h
  | Json.bool _, Json.str _, h => by simp [jsonBeq] at h
  | Json.bool _, Json.arr _, h => by simp [jsonBeq] at h
  | Json.bool _, Json.obj _, h => by simp [jsonBeq] at h
  | Json.num _, Json.null, h => by simp [jsonBeq] at h
  | Json.num _, Json.bool _, h => by simp [jsonBeq] at h
  | Json.num _, Json.str _, h => by simp [jsonBeq] at h
  | Json.num _, Json.arr _, h => by simp [jsonBeq] at h
  | Json.num _, Json.obj _, h => by simp [jsonBeq] at h
  | Json.str _, Json.null, h => by simp [jsonBeq] at h
  | Json.str _, Json.bool _, h => by simp [jsonBeq] at h
  | Json.str _, Json.num _, h => by simp [jsonBeq] at h
  | Json.str _, Json.arr _, h => by simp [jsonBeq] at h
  | Json.str _, Json.obj _, h => by simp [jsonBeq] at h
  | Json.arr _, Json.null, h => by simp [jsonBeq] at h
  | Json.arr _, Json.bool _, h => by simp [jsonBeq] at h
  | Json.arr _, Json.num _, h => by simp [jsonBeq] at h
  | Json.arr _, Json.str _, h => by simp [jsonBeq] at h
  | Json.arr _, Json.obj _, h => by simp [jsonBeq] at h
  | Json.obj _, Json.null, h => by simp [jsonBeq] at h
  | Json.obj _, Json.bool _, h => by simp [jsonBeq] at h
  | Json.obj _, Json.num _, h => by simp [jsonBeq] at h
  | Json.obj _, Json.str _, h => by simp [jsonBeq] at h
  | Json.obj _, Json.arr _, h => by simp [jsonBeq] at h

def jsonBeqList_eq : (xs ys : List Json) → jsonBeqList xs ys = true → xs = ys
  | [], [], _ => rfl
  | x :: xs, y :: ys, h => by
      have h1 : jsonBeq x y = true := by
        have := h; simp [jsonBeqList] at this; exact this.1
      have h2 : jsonBeqList xs ys = true := by
        have := h; simp [jsonBeqList] at this; exact this.2
      rw [jsonBeq_eq x y h1, jsonBeqList_eq xs ys h2]
  | [], _ :: _, h => by simp [jsonBeqList] at h
  | _ :: _, [], h => by simp [jsonBeqList] at h

def jsonBeqFields_eq : (fs gs : List (String × Json)) → jsonBeqFields fs gs = true → fs = gs
  | [], [], _ => rfl
  | (k, v) :: fs, (l, w) :: gs, h => by
      have h1 : k = l := by
        have := h; simp [jsonBeqFields] at this; exact this.1.1
      have h2 : jsonBeq v w = true := by
        have := h; simp [jsonBeqFields] at this; exact this.1.2
      have h3 : jsonBeqFields fs gs = true := by
        have := h; simp [jsonBeqFields] at this; exact this.2
      rw [h1, jsonBeq_eq v w h2, jsonBeqFields_eq fs gs h3]
  | [], _ :: _, h => by simp [jsonBeqFields] at h
  | _ :: _, [], h => by simp [jsonBeqFields] at h

end

instance : DecidableEq Json := fun a b =>
  if h : jsonBeq a b = true then Decidable.isTrue (jsonBeq_eq a b h)
  else Decidable.isFalse (fun e => h (e ▸ jsonBeq_refl a))

/-- Python truthiness of a parsed JSON value (`if not x`). -/
def Json.isTruthy : Json → Bool
  | Json.null => false
  | Json.bool b => b
  | Json.num n => n != 0
  | Json.str s => !s.isEmpty
  | Json.arr xs => !xs.isEmpty
  | Json.obj fs => !fs.isEmpty

/-- Association-list lookup used to model Python dict access on a JSON object. -/
def lookupJ : List (String × Json) → String → Option Json
  | [], _ => none
  | (k, v) :: fs, key => if k = key then some v else lookupJ fs key

/-- Python `x.get(k)` where `x` is a parsed JSON value: crashes
(`AttributeError`, modelled as `none`) when `x` is not a dict; otherwise
returns the entry (`some none` = key absent, i.e. Python `None`). -/
def pyGet : Json → String → Option (Option Json)
  | Json.obj fs, k => some (lookupJ fs k)
  | _, _ => none

/-- Python `x.get(k, d)` with a JSON default. -/
def pyGetD (j : Json) (k : String) (d : Json) : Option Json :=
  (pyGet j k).map (fun v => v.getD d)

mutual

/-- Python `str()` of a parsed JSON value, as interpolated by f-strings. -/
def pyStr : Json → String
  | Json.null => "None"
  | Json.bool b => if b then "True" else "False"
  | Json.num n => toString n
  | Json.str s => s
  | Json.arr xs => "[" ++ String.intercalate ", " (pyReprList xs) ++ "]"
  | Json.obj fs => "\x7b" ++ String.intercalate ", " (pyReprFields fs) ++ "\x7d"

/-- `repr()` of each element of a parsed JSON list (container rendering). -/
def pyReprList : List Json → List String
  | [] => []
  | Json.str s :: xs => ("\x27" ++ s ++ "\x27") :: pyReprList xs
  | x :: xs => pyStr x :: pyReprList xs

/-- `repr()` of each field of a parsed JSON object (container rendering). -/
def pyReprFields : List (String × Json) → List String
  | [] => []
  | (k, Json.str s) :: fs =>
      ("\x27" ++ k ++ "\x27: " ++ "\x27" ++ s ++ "\x27") :: pyReprFields fs
  | (k, v) :: fs => ("\x27" ++ k ++ "\x27: " ++ pyStr v) :: pyReprFields fs

end

/-- Python `x.get(k, d)` rendered by an f-string with a string default
(the value, if present, goes through `str()`). -/
def pyGetStr (j : Json) (k : String) (d : String) : Option String :=
  (pyGet j k).map (fun v => match v with
    | some w => pyStr w
    | none => d)

/-- The pattern `((x.get(k1) or {}).get(k2)) or d` from the source
(season tournament name, match home/away/status names, fixture names). -/
def pyOrGetStr (j : Json) (k1 k2 : String) (d : String) : Option String := do
  let t ← pyGetD j k1 Json.null
  let t2 := if t.isTruthy then t else Json.obj []
  let v ← pyGetD t2 k2 Json.null
  pure (if v.isTruthy then pyStr v else d)

/-- The pattern `x.get(k1) or x.get(k2) or d` (event player name). -/
def pyOr2Str (j : Json) (k1 k2 : String) (d : String) : Option String := do
  let a ← pyGetD j k1 Json.null
  if a.isTruthy then pure (pyStr a)
  else do
    let b ← pyGetD j k2 Json.null
    pure (if b.isTruthy then pyStr b else d)

/-- `match lookupJ fs k with present => str(v) | absent => d`; the value a
field lookup with string default contributes to a report. -/
def strD (fs : List (String × Json)) (k d : String) : String :=
  match lookupJ fs k with
  | some v => pyStr v
  | none => d


/-! ### Python `int()` parsing and the per-argument validators -/


/-- Python `str.strip()`: drop leading and trailing whitespace.  (Defined
over the character list so that it evaluates inside the kernel.) -/
def pyStrip (s : String) : String :=
  ⟨((s.data.dropWhile Char.isWhitespace).reverse.dropWhile Char.isWhitespace).reverse⟩

/-- Value of a decimal digit character, if any. -/
def digitVal (c : Char) : Option Nat :=
  if '0' ≤ c ∧ c ≤ '9' then some (c.toNat - '0'.toNat) else none

/-- Remaining digits of a Python int literal: digits, optionally separated
by single underscores (no trailing or doubled underscore). -/
def parseDigitsCore : List Char → Nat → Option Nat
  | [], acc => some acc
  | '_' :: c :: rest, acc =>
      match digitVal c with
      | some d => parseDigitsCore rest (acc * 10 + d)
      | none => none
  | ['_'], _ => none
  | c :: rest, acc =>
      match digitVal c with
      | some d => parseDigitsCore rest (acc * 10 + d)
      | none => none

/-- Digit sequence of a Python int literal (must start with a digit). -/
def parseDigits : List Char → Option Nat
  | [] => none
  | c :: rest =>
      match digitVal c with
      | some d => parseDigitsCore rest d
      | none => none

/-- Python `int(s)` on an already-stripped string: optional sign followed by
digits (single underscores allowed between digits); `none` = `ValueError`. -/
def parsePyInt (s : String) : Option Int :=
  match s.data with
  | '+' :: rest => (parseDigits rest).map Int.ofNat
  | '-' :: rest => (parseDigits rest).map (fun n => -(Int.ofNat n : Int))
  | cs => (parseDigits cs).map Int.ofNat

/-- The `page_number`/`page_size` validation block shared by `list_seasons`
and `list_season_matches`: default when blank, else `max(1, int(raw))`,
else the "Invalid ... value" error naming the raw input. -/
def parseClampedArg (raw : String) (dflt : Int) (paramName : String) : Sum String Int :=
  if pyStrip raw = "" then Sum.inr dflt
  else
    match parsePyInt (pyStrip raw) with
    | some n => Sum.inr (max 1 n)
    | none => Sum.inl ("❌ Error: Invalid " ++ paramName ++ " value: " ++ raw)

/-- The mandatory-identifier validation block (`season_id`, `match_id`):
required when blank, else `int(raw)`, else the "Invalid ... value" error. -/
def parseIdArg (raw : String) (paramName : String) : Sum String Int :=
  if pyStrip raw = "" then Sum.inl ("❌ Error: " ++ paramName ++ " is required.")
  else
    match parsePyInt (pyStrip raw) with
    | some n => Sum.inr n
    | none => Sum.inl ("❌ Error: Invalid " ++ paramName ++ " value: " ++ raw)

/-- The `limit` validation block of `get_match_events`: default 10 when
blank, else `max(1, min(50, int(raw)))`, else the "Invalid limit" error. -/
def parseLimitArg (raw : String) : Sum String Int :=
  if pyStrip raw = "" then Sum.inr 10
  else
    match parsePyInt (pyStrip raw) with
    | some n => Sum.inr (max 1 (min 50 n))
    | none => Sum.inl ("❌ Error: Invalid limit value: " ++ raw)


/-! ### `_get_api_key` and `_perform_request` -/

/-- `_get_api_key`: the environment value, stripped. -/
def _get_api_key (env : String) : String := pyStrip env

/-- Outcome of the single HTTP GET a tool issues: a response with a status
code and a body (`none` = body that fails JSON parsing), or a transport
failure (connection error, timeout, ...) carrying `str(exc)`. -/
inductive HttpOutcome where
  | response : Nat → Option Json → HttpOutcome
  | transportError : String → HttpOutcome
deriving DecidableEq, Repr

/-- The outgoing query: five fixed fields, the secret key, then the
endpoint-specific params (all already stringified by the callers). -/
def buildParams (apiKey apiName : String) (extra : List (String × String)) : List (String × String) :=
  [("module", "api"), ("api", apiName), ("version", "V2"),
   ("response", "json"), ("lang", "en"), ("key", apiKey)] ++ extra

/-- The `ConfigurationError` string returned when the secret key is missing. -/
def missingKeyMsg : String :=
  "❌ Error: Missing Korastats API key. Set Docker secret KORASTATS_API_KEY."

/-- Result of `_perform_request`: the params actually sent (none = no
network call), the params mapping written to the diagnostic log line
(none = no log line), and the `(success, payload)` pair returned to the
caller (`Sum.inl` = `(False, error string)`, `Sum.inr` = `(True, tree)`). -/
structure ReqResult where
  sent : Option (List (String × String))
  logged : Option (List (String × String))
  outcome : Sum String Json
deriving DecidableEq, Repr

/-- `_perform_request`: key check, param construction, log line, GET with
`raise_for_status` (any non-2xx raises `HTTPStatusError`), JSON parsing. -/
def _perform_request (apiKeyEnv apiName : String) (extra : List (String × String)) (net : HttpOutcome) : ReqResult :=
  let api_key := _get_api_key apiKeyEnv
  if api_key = "" then ⟨none, none, Sum.inl missingKeyMsg⟩
  else
    let params := buildParams api_key apiName extra
    let logged := params.filter (fun kv => kv.1 != "key")
    match net with
    | HttpOutcome.transportError msg =>
        ⟨some params, some logged, Sum.inl ("❌ Error: " ++ msg)⟩
    | HttpOutcome.response status body =>
        if status < 200 ∨ 300 ≤ status then
          ⟨some params, some logged, Sum.inl ("❌ API Error: " ++ toString status)⟩
        else
          match body with
          | some payload => ⟨some params, some logged, Sum.inr payload⟩
          | none => ⟨some params, some logged,
              Sum.inl "❌ Error: Received invalid JSON from Korastats."⟩

/-! ### Formatting: record lines, previews and report templates -/

/-- `_format_score`: `"N/A"` unless the score is a dict with non-`None`
`home` and `away`, else `f"{home}-{away}"`. -/
def _format_score (score : Json) : String :=
  match score with
  | Json.obj fs =>
      match (lookupJ fs "home").getD Json.null, (lookupJ fs "away").getD Json.null with
      | Json.null, _ => "N/A"
      | _, Json.null => "N/A"
      | h, a => pyStr h ++ "-" ++ pyStr a
  | _ => "N/A"

/-- One line of the seasons preview (`list_seasons` loop body). -/
def seasonLine (season : Json) : Option String := do
  let sid ← pyGetStr season "id" "N/A"
  let name ← pyGetStr season "name" "Unknown"
  let startD ← pyGetStr season "startDate" "Unknown"
  let endD ← pyGetStr season "endDate" "Unknown"
  let tournament ← pyOrGetStr season "tournament" "name" "Unknown"
  pure ("- ID " ++ sid ++ ": " ++ name ++ " | " ++ tournament ++ " | " ++ startD ++ " → " ++ endD)

/-- One line of the matches preview (`list_season_matches` loop body). -/
def matchLine (m : Json) : Option String := do
  let mid ← pyGetStr m "matchId" "N/A"
  let home ← pyOrGetStr m "home" "name" "Home"
  let away ← pyOrGetStr m "away" "name" "Away"
  let kickoff ← pyGetStr m "dateTime" "Unknown"
  let status ← pyOrGetStr m "status" "name" "Unknown"
  let score ← (pyGet m "score").map (fun v => _format_score (v.getD Json.null))
  pure ("- #" ++ mid ++ ": " ++ home ++ " vs " ++ away ++ " | " ++ kickoff ++
        " | Score " ++ score ++ " | Status " ++ status)

/-- One line of the events preview (`get_match_events` loop body). -/
def eventLine (ev : Json) : Option String := do
  let half ← pyGetStr ev "half" "N/A"
  let minute ← pyGetStr ev "min" "N/A"
  let secondv ← pyGetStr ev "sec" "0"
  let team ← pyGetStr ev "team" "Unknown"
  let player ← pyOr2Str ev "nickname" "player" "Unknown player"
  let category ← pyGetStr ev "category" "Event"
  let action ← pyGetStr ev "event" "Action"
  let result ← pyGetStr ev "result" "Unknown"
  pure ("- " ++ half ++ "H " ++ minute ++ "\x27" ++ secondv ++ "\x22 " ++ team ++ ": " ++
        player ++ " | " ++ category ++ " → " ++ action ++ " (" ++ result ++ ")")

/-- The per-record formatting loop: format each preview record, crashing
(`none`) if any record line does. -/
def mapLines (f : Json → Option String) : List Json → Option (List String)
  | [] => some []
  | x :: xs => do
    let l ← f x
    let rest ← mapLines f xs
    pure (l :: rest)

/-- `xs[: min(len(xs), 5)]` — the truncated preview of seasons/matches. -/
def topPreview (xs : List Json) : List Json := xs.take (min xs.length 5)

/-- `xs[: min(len(xs), limit_value)]` — the truncated preview of events. -/
def eventsPreviewOf (xs : List Json) (limitValue : Int) : List Json :=
  xs.take (min xs.length limitValue.toNat)

/-- The seasons success report f-string.  `count` is interpolated from
`len(seasons)` — the full record-list length. -/
def seasonsReport (count : Nat) (total pages cur linesText msg now : String) : String :=
  "📊 Seasons Overview:\n- Records on page: " ++ toString count ++
  "\n- Total records: " ++ total ++
  "\n- Page: " ++ cur ++ " of " ++ pages ++
  "\n\nTop seasons:\n" ++ linesText ++
  "\n\nSummary: " ++ msg ++ " | Generated at " ++ now

/-- The matches success report f-string.  `count` is `len(matches)`; `cur`
is interpolated from the validated `page_value`, not from the payload. -/
def matchesReport (count : Nat) (rows cur pages linesText msg now : String) : String :=
  "📊 Match Overview:\n- Matches on page: " ++ toString count ++
  "\n- Total matches: " ++ rows ++
  "\n- Page: " ++ cur ++ " of " ++ pages ++
  "\n\nUpcoming details:\n" ++ linesText ++
  "\n\nSummary: " ++ msg ++ " | Generated at " ++ now

/-- The events success report f-string.  `total` is `len(events)`; `shown`
is `len(preview)`. -/
def eventsReport (home away status : String) (total shown : Nat) (limitValue : Int)
    (linesText msg now : String) : String :=
  "📊 Match Events:\n- Fixture: " ++ home ++ " vs " ++ away ++
  "\n- Status: " ++ status ++
  "\n- Total events: " ++ toString total ++
  "\n- Showing first " ++ toString shown ++ " events (limit " ++ toString limitValue ++ ")" ++
  "\n\nHighlights:\n" ++ linesText ++
  "\n\nSummary: " ++ msg ++ " | Generated at " ++ now

/-! ### Envelope unwrapping and per-tool bodies -/

/-- `list_seasons` after a successful request: nested-envelope unwrap and
formatting (source lines 121-157).  `none` models an uncaught exception. -/
def seasonsBody (payload : Json) (now : String) : Option String := do
  let root ← pyGetD payload "root" (Json.obj [])
  let resultFlag ← pyGetD root "result" Json.null
  if !resultFlag.isTruthy then
    let msg ← pyGetStr root "message" "Korastats API returned an error."
    pure ("❌ API Error: " ++ msg)
  else do
    let obj ← pyGetD root "object" (Json.obj [])
    let seasons ← pyGetD obj "Data" (Json.arr [])
    if !seasons.isTruthy then
      pure "⚠️ No seasons found for the requested page."
    else
      match seasons with
      | Json.arr xs => do
          let lines ← mapLines seasonLine (topPreview xs)
          let linesText := String.intercalate "\n" lines
          let total ← pyGetStr obj "total_records" "Unknown"
          let pages ← pyGetStr obj "pages" "Unknown"
          let cur ← pyGetStr obj "current_page" "Unknown"
          let msg ← pyGetStr root "message" "Success"
          pure (seasonsReport xs.length total pages cur linesText msg now)
      | _ => none

/-- `list_season_matches` after a successful request (source lines 195-233).
`pageValue` is the validated, clamped `page_number`. -/
def matchesBody (payload : Json) (pageValue : Int) (now : String) : Option String := do
  let root ← pyGetD payload "root" (Json.obj [])
  let resultFlag ← pyGetD root "result" Json.null
  if !resultFlag.isTruthy then
    let msg ← pyGetStr root "message" "Korastats API returned an error."
    pure ("❌ API Error: " ++ msg)
  else do
    let obj ← pyGetD root "object" (Json.obj [])
    let matchList ← pyGetD obj "Data" (Json.arr [])
    if !matchList.isTruthy then
      pure "⚠️ No matches found for the supplied season."
    else
      match matchList with
      | Json.arr xs => do
          let lines ← mapLines matchLine (topPreview xs)
          let linesText := String.intercalate "\n" lines
          let rows ← pyGetStr obj "RowsCount" "Unknown"
          let pages ← pyGetStr obj "PageCount" "Unknown"
          let msg ← pyGetStr root "message" "Success"
          pure (matchesReport xs.length rows (toString pageValue) pages linesText msg now)
      | _ => none

/-- `get_match_events` after a successful request: flat-envelope unwrap and
formatting (source lines 259-306). -/
def eventsBody (payload : Json) (matchValue limitValue : Int) (now : String) : Option String := do
  let resultFlag ← pyGetD payload "result" Json.null
  if !resultFlag.isTruthy then
    let msg ← pyGetStr payload "message" "Korastats API returned an error."
    pure ("❌ API Error: " ++ msg)
  else do
    let dataJ ← pyGetD payload "data" (Json.obj [])
    let matchJ ← pyGetD dataJ "match" Json.null
    if !matchJ.isTruthy then
      pure "⚠️ No match details returned for the given match_id."
    else do
      let home ← pyOrGetStr matchJ "home" "name" "Home"
      let away ← pyOrGetStr matchJ "away" "name" "Away"
      let status ← pyOrGetStr matchJ "status" "strStatus" "Unknown"
      let events ← pyGetD matchJ "events" (Json.arr [])
      if !events.isTruthy then
        pure ("⚠️ No events available for match " ++ toString matchValue ++ ".")
      else
        match events with
        | Json.arr xs => do
            let preview := eventsPreviewOf xs limitValue
            let lines ← mapLines eventLine preview
            let linesText := String.intercalate "\n" lines
            let msg ← pyGetStr payload "message" "Success"
            pure (eventsReport home away status xs.length preview.length limitValue linesText msg now)
        | _ => none

/-! ### The three tool endpoints -/

/-- Observable result of one tool invocation: the returned string (`none`
models an uncaught exception), the query params sent over the network
(`none` = no HTTP request issued), and the logged params mapping. -/
structure ToolResult where
  output : Option String
  request : Option (List (String × String))
  logged : Option (List (String × String))
deriving DecidableEq, Repr

/-- A tool result produced before `_perform_request` runs. -/
def noCallResult (out : Option String) : ToolResult := ⟨out, none, none⟩

/-- The `list_seasons` tool. -/
def list_seasons (page_number page_size apiKeyEnv : String) (net : HttpOutcome) (now : String) : ToolResult :=
  match parseClampedArg page_number 1 "page_number" with
  | Sum.inl e => noCallResult (some e)
  | Sum.inr page_value =>
    match parseClampedArg page_size 20 "page_size" with
    | Sum.inl e => noCallResult (some e)
    | Sum.inr size_value =>
      let req := _perform_request apiKeyEnv "SeasonList"
        [("page_number", toString page_value), ("page_size", toString size_value)] net
      match req.outcome with
      | Sum.inl err => ⟨some err, req.sent, req.logged⟩
      | Sum.inr payload => ⟨seasonsBody payload now, req.sent, req.logged⟩

/-- The `list_season_matches` tool. -/
def list_season_matches (season_id page_number page_size apiKeyEnv : String) (net : HttpOutcome) (now : String) : ToolResult :=
  match parseIdArg season_id "season_id" with
  | Sum.inl e => noCallResult (some e)
  | Sum.inr season_value =>
    match parseClampedArg page_number 1 "page_number" with
    | Sum.inl e => noCallResult (some e)
    | Sum.inr page_value =>
      match parseClampedArg page_size 20 "page_size" with
      | Sum.inl e => noCallResult (some e)
      | Sum.inr size_value =>
        let req := _perform_request apiKeyEnv "SeasonMatchList"
          [("season_id", toString season_value), ("page_number", toString page_value),
           ("page_size", toString size_value)] net
        match req.outcome with
        | Sum.inl err => ⟨some err, req.sent, req.logged⟩
        | Sum.inr payload => ⟨matchesBody payload page_value now, req.sent, req.logged⟩

/-- The `get_match_events` tool. -/
def get_match_events (match_id limit apiKeyEnv : String) (net : HttpOutcome) (now : String) : ToolResult :=
  match parseIdArg match_id "match_id" with
  | Sum.inl e => noCallResult (some e)
  | Sum.inr match_value =>
    match parseLimitArg limit with
    | Sum.inl e => noCallResult (some e)
    | Sum.inr limit_value =>
      let req := _perform_request apiKeyEnv "MatchEventList"
        [("match_id", toString match_value)] net
      match req.outcome with
      | Sum.inl err => ⟨some err, req.sent, req.logged⟩
      | Sum.inr payload => ⟨eventsBody payload match_value limit_value now, req.sent, req.logged⟩

/-! ### Auxiliary definitions used by the verification -/

/-- String-valued association lookup (outgoing query parameters). -/
def lookupS : List (String × String) → String → Option String
  | [], _ => none
  | (k, v) :: ps, key => if k = key then some v else lookupS ps key

/-- `s` begins with the marker string `m`. -/
def marked (m s : String) : Prop := m.data <+: s.data

instance (m s : String) : Decidable (marked m s) :=
  inferInstanceAs (Decidable (m.data <+: s.data))

/-- Number of occurrences of `pat` in a character list. -/
def countOccs (pat : List Char) : List Char → Nat
  | [] => 0
  | c :: rest => (if pat.isPrefixOf (c :: rest) then 1 else 0) + countOccs pat rest

/-- A mocked response whose season list has 6 records. -/
def c1net : HttpOutcome :=
  HttpOutcome.response 200 (some (Json.obj [("root", Json.obj [
    ("result", Json.bool true),
    ("object", Json.obj [("Data", Json.arr [
      Json.obj [("id", Json.num 1)], Json.obj [("id", Json.num 2)],
      Json.obj [("id", Json.num 3)], Json.obj [("id", Json.num 4)],
      Json.obj [("id", Json.num 5)], Json.obj [("id", Json.num 6)]])])])]))

/-- The report `list_seasons` renders for `c1net`. -/
def c1seasonsOut : String :=
  ((list_seasons "" "" "k" c1net "TS").output).getD ""

/-- Everything of the seasons report before the generated timestamp. -/
def seasonsReportPre (count : Nat) (total pages cur linesText msg : String) : String :=
  "📊 Seasons Overview:\n- Records on page: " ++ toString count ++
  "\n- Total records: " ++ total ++
  "\n- Page: " ++ cur ++ " of " ++ pages ++
  "\n\nTop seasons:\n" ++ linesText ++
  "\n\nSummary: " ++ msg ++ " | Generated at "

/-- Everything of the matches report before the generated timestamp. -/
def matchesReportPre (count : Nat) (rows cur pages linesText msg : String) : String :=
  "📊 Match Overview:\n- Matches on page: " ++ toString count ++
  "\n- Total matches: " ++ rows ++
  "\n- Page: " ++ cur ++ " of " ++ pages ++
  "\n\nUpcoming details:\n" ++ linesText ++
  "\n\nSummary: " ++ msg ++ " | Generated at "

/-- Everything of the events report before the generated timestamp. -/
def eventsReportPre (home away status : String) (total shown : Nat) (limitValue : Int)
    (linesText msg : String) : String :=
  "📊 Match Events:\n- Fixture: " ++ home ++ " vs " ++ away ++
  "\n- Status: " ++ status ++
  "\n- Total events: " ++ toString total ++
  "\n- Showing first " ++ toString shown ++ " events (limit " ++ toString limitValue ++ ")" ++
  "\n\nHighlights:\n" ++ linesText ++
  "\n\nSummary: " ++ msg ++ " | Generated at "

/-- A string carries one of the three category markers. -/
def oneMarker (s : String) : Prop :=
  marked "❌" s ∨ marked "⚠️" s ∨ marked "📊" s

/-! ### Evaluation checks and bridging lemmas -/

example : pyGetStr (Json.obj [("a", Json.num 3)]) "a" "x" = some "3" := by decide
example : pyGetStr (Json.obj []) "a" "x" = some "x" := by decide
example : pyGetStr (Json.num 1) "a" "x" = none := by decide
example : pyStr (Json.obj [("a", Json.arr [Json.str "b", Json.null])]) = "\x7b\x27a\x27: [\x27b\x27, None]\x7d" := by decide
example : pyOrGetStr (Json.obj [("tournament", Json.obj [("name", Json.str "T1")])]) "tournament" "name" "Unknown" = some "T1" := by decide
example : pyOrGetStr (Json.obj [("tournament", Json.null)]) "tournament" "name" "Unknown" = some "Unknown" := by decide
example : pyOrGetStr (Json.obj [("tournament", Json.str "x")]) "tournament" "name" "Unknown" = none := by decide

example : parsePyInt "12" = some 12 := by decide
example : parsePyInt "-3" = some (-3) := by decide
example : parsePyInt "1_0" = some 10 := by decide
example : parsePyInt "1__0" = none := by decide
example : parsePyInt "abc" = none := by decide
example : parsePyInt "" = none := by decide
example : parseClampedArg "0" 1 "page_number" = Sum.inr 1 := by decide
example : parseLimitArg "100" = Sum.inr 50 := by decide


theorem parsePyInt_empty : parsePyInt "" = none := rfl

theorem parsePyInt_ne_empty {raw : String} {n : Int}
    (h : parsePyInt (pyStrip raw) = some n) : ¬ pyStrip raw = "" := by
  intro he
  rw [he, parsePyInt_empty] at h
  exact Option.noConfusion h

theorem parseClampedArg_parsed {raw : String} {n : Int} (d : Int) (nm : String)
    (h : parsePyInt (pyStrip raw) = some n) :
    parseClampedArg raw d nm = Sum.inr (max 1 n) := by
  simp [parseClampedArg, parsePyInt_ne_empty h, h]

theorem parseClampedArg_empty (d : Int) (nm : String) {raw : String}
    (h : pyStrip raw = "") : parseClampedArg raw d nm = Sum.inr d := by
  simp [parseClampedArg, h]

theorem parseIdArg_parsed {raw : String} {n : Int} (nm : String)
    (h : parsePyInt (pyStrip raw) = some n) :
    parseIdArg raw nm = Sum.inr n := by
  simp [parseIdArg, parsePyInt_ne_empty h, h]

theorem parseLimitArg_parsed {raw : String} {k : Int}
    (h : parsePyInt (pyStrip raw) = some k) :
    parseLimitArg raw = Sum.inr (max 1 (min 50 k)) := by
  simp [parseLimitArg, parsePyInt_ne_empty h, h]

theorem perform_noKey (key api : String) (extra : List (String × String)) (net : HttpOutcome)
    (hk : pyStrip key = "") :
    _perform_request key api extra net = ⟨none, none, Sum.inl missingKeyMsg⟩ := by
  simp [_perform_request, _get_api_key, hk]

theorem perform_sent (key api : String) (extra : List (String × String)) (net : HttpOutcome)
    (hk : ¬ pyStrip key = "") :
    (_perform_request key api extra net).sent = some (buildParams (pyStrip key) api extra) ∧
    (_perform_request key api extra net).logged =
      some ((buildParams (pyStrip key) api extra).filter (fun kv => kv.1 != "key")) := by
  unfold _perform_request _get_api_key
  cases net with
  | transportError msg => simp [hk]
  | response status body =>
      simp only [if_neg hk]
      constructor <;> (split <;> [skip; cases body] <;> simp)

theorem perform_transport (key api : String) (extra : List (String × String)) (msg : String)
    (hk : ¬ pyStrip key = "") :
    (_perform_request key api extra (HttpOutcome.transportError msg)).outcome =
      Sum.inl ("❌ Error: " ++ msg) := by
  simp [_perform_request, _get_api_key, hk]

theorem perform_status (key api : String) (extra : List (String × String))
    (status : Nat) (body : Option Json)
    (hk : ¬ pyStrip key = "") (hs : status < 200 ∨ 300 ≤ status) :
    (_perform_request key api extra (HttpOutcome.response status body)).outcome =
      Sum.inl ("❌ API Error: " ++ toString status) := by
  simp [_perform_request, _get_api_key, hk, hs]

theorem perform_badjson (key api : String) (extra : List (String × String)) (status : Nat)
    (hk : ¬ pyStrip key = "") (hs : 200 ≤ status ∧ status < 300) :
    (_perform_request key api extra (HttpOutcome.response status none)).outcome =
      Sum.inl "❌ Error: Received invalid JSON from Korastats." := by
  have : ¬ (status < 200 ∨ 300 ≤ status) := by omega
  simp [_perform_request, _get_api_key, hk, this]

theorem perform_payload (key api : String) (extra : List (String × String)) (status : Nat)
    (payload : Json) (hk : ¬ pyStrip key = "") (hs : 200 ≤ status ∧ status < 300) :
    (_perform_request key api extra (HttpOutcome.response status (some payload))).outcome =
      Sum.inr payload := by
  have : ¬ (status < 200 ∨ 300 ≤ status) := by omega
  simp [_perform_request, _get_api_key, hk, this]

theorem list_seasons_eq (pn ps key now : String) (net : HttpOutcome) (a b : Int)
    (h1 : parseClampedArg pn 1 "page_number" = Sum.inr a)
    (h2 : parseClampedArg ps 20 "page_size" = Sum.inr b) :
    list_seasons pn ps key net now =
      (let req := _perform_request key "SeasonList"
          [("page_number", toString a), ("page_size", toString b)] net
       match req.outcome with
       | Sum.inl err => ⟨some err, req.sent, req.logged⟩
       | Sum.inr payload => ⟨seasonsBody payload now, req.sent, req.logged⟩) := by
  simp only [list_seasons, h1, h2]

theorem list_season_matches_eq (sid pn ps key now : String) (net : HttpOutcome) (s a b : Int)
    (h0 : parseIdArg sid "season_id" = Sum.inr s)
    (h1 : parseClampedArg pn 1 "page_number" = Sum.inr a)
    (h2 : parseClampedArg ps 20 "page_size" = Sum.inr b) :
    list_season_matches sid pn ps key net now =
      (let req := _perform_request key "SeasonMatchList"
          [("season_id", toString s), ("page_number", toString a), ("page_size", toString b)] net
       match req.outcome with
       | Sum.inl err => ⟨some err, req.sent, req.logged⟩
       | Sum.inr payload => ⟨matchesBody payload a now, req.sent, req.logged⟩) := by
  simp only [list_season_matches, h0, h1, h2]

theorem get_match_events_eq (mid lim key now : String) (net : HttpOutcome) (mv lv : Int)
    (h0 : parseIdArg mid "match_id" = Sum.inr mv)
    (h1 : parseLimitArg lim = Sum.inr lv) :
    get_match_events mid lim key net now =
      (let req := _perform_request key "MatchEventList" [("match_id", toString mv)] net
       match req.outcome with
       | Sum.inl err => ⟨some err, req.sent, req.logged⟩
       | Sum.inr payload => ⟨eventsBody payload mv lv now, req.sent, req.logged⟩) := by
  simp only [get_match_events, h0, h1]
theorem pyGetD_obj (fs : List (String × Json)) (k : String) (d : Json) :
    pyGetD (Json.obj fs) k d = some ((lookupJ fs k).getD d) := rfl

theorem pyGetStr_obj (fs : List (String × Json)) (k d : String) :
    pyGetStr (Json.obj fs) k d = some (strD fs k d) := rfl

theorem seasonsBody_err (pfs rfs : List (String × Json)) (now : String)
    (hroot : (lookupJ pfs "root").getD (Json.obj []) = Json.obj rfs)
    (hres : ((lookupJ rfs "result").getD Json.null).isTruthy = false) :
    seasonsBody (Json.obj pfs) now =
      some ("❌ API Error: " ++ strD rfs "message" "Korastats API returned an error.") := by
  simp [seasonsBody, pyGetD_obj, hroot, hres, pyGetStr_obj]

theorem seasonsBody_empty (pfs rfs ofs : List (String × Json)) (now : String)
    (hroot : (lookupJ pfs "root").getD (Json.obj []) = Json.obj rfs)
    (hres : ((lookupJ rfs "result").getD Json.null).isTruthy = true)
    (hobj : (lookupJ rfs "object").getD (Json.obj []) = Json.obj ofs)
    (hdata : ((lookupJ ofs "Data").getD (Json.arr [])).isTruthy = false) :
    seasonsBody (Json.obj pfs) now = some "⚠️ No seasons found for the requested page." := by
  simp [seasonsBody, pyGetD_obj, hroot, hres, hobj, hdata]

theorem seasonsBody_success (pfs rfs ofs : List (String × Json)) (xs : List Json)
    (lines : List String) (now : String)
    (hroot : (lookupJ pfs "root").getD (Json.obj []) = Json.obj rfs)
    (hres : ((lookupJ rfs "result").getD Json.null).isTruthy = true)
    (hobj : (lookupJ rfs "object").getD (Json.obj []) = Json.obj ofs)
    (hdata : (lookupJ ofs "Data").getD (Json.arr []) = Json.arr xs)
    (hne : xs ≠ [])
    (hlines : mapLines seasonLine (topPreview xs) = some lines) :
    seasonsBody (Json.obj pfs) now =
      some (seasonsReport xs.length (strD ofs "total_records" "Unknown")
        (strD ofs "pages" "Unknown") (strD ofs "current_page" "Unknown")
        (String.intercalate "\n" lines) (strD rfs "message" "Success") now) := by
  have htr : (Json.arr xs).isTruthy = true := by
    simp [Json.isTruthy, List.isEmpty_iff, hne]
  simp [seasonsBody, pyGetD_obj, hroot, hres, hobj, hdata, htr, hlines, pyGetStr_obj]

theorem matchesBody_err (pfs rfs : List (String × Json)) (pv : Int) (now : String)
    (hroot : (lookupJ pfs "root").getD (Json.obj []) = Json.obj rfs)
    (hres : ((lookupJ rfs "result").getD Json.null).isTruthy = false) :
    matchesBody (Json.obj pfs) pv now =
      some ("❌ API Error: " ++ strD rfs "message" "Korastats API returned an error.") := by
  simp [matchesBody, pyGetD_obj, hroot, hres, pyGetStr_obj]

theorem matchesBody_empty (pfs rfs ofs : List (String × Json)) (pv : Int) (now : String)
    (hroot : (lookupJ pfs "root").getD (Json.obj []) = Json.obj rfs)
    (hres : ((lookupJ rfs "result").getD Json.null).isTruthy = true)
    (hobj : (lookupJ rfs "object").getD (Json.obj []) = Json.obj ofs)
    (hdata : ((lookupJ ofs "Data").getD (Json.arr [])).isTruthy = false) :
    matchesBody (Json.obj pfs) pv now = some "⚠️ No matches found for the supplied season." := by
  simp [matchesBody, pyGetD_obj, hroot, hres, hobj, hdata]

theorem matchesBody_success (pfs rfs ofs : List (String × Json)) (xs : List Json)
    (lines : List String) (pv : Int) (now : String)
    (hroot : (lookupJ pfs "root").getD (Json.obj []) = Json.obj rfs)
    (hres : ((lookupJ rfs "result").getD Json.null).isTruthy = true)
    (hobj : (lookupJ rfs "object").getD (Json.obj []) = Json.obj ofs)
    (hdata : (lookupJ ofs "Data").getD (Json.arr []) = Json.arr xs)
    (hne : xs ≠ [])
    (hlines : mapLines matchLine (topPreview xs) = some lines) :
    matchesBody (Json.obj pfs) pv now =
      some (matchesReport xs.length (strD ofs "RowsCount" "Unknown") (toString pv)
        (strD ofs "PageCount" "Unknown") (String.intercalate "\n" lines)
        (strD rfs "message" "Success") now) := by
  have htr : (Json.arr xs).isTruthy = true := by
    simp [Json.isTruthy, List.isEmpty_iff, hne]
  simp [matchesBody, pyGetD_obj, hroot, hres, hobj, hdata, htr, hlines, pyGetStr_obj]

theorem eventsBody_err (pfs : List (String × Json)) (mv lv : Int) (now : String)
    (hres : ((lookupJ pfs "result").getD Json.null).isTruthy = false) :
    eventsBody (Json.obj pfs) mv lv now =
      some ("❌ API Error: " ++ strD pfs "message" "Korastats API returned an error.") := by
  simp [eventsBody, pyGetD_obj, hres, pyGetStr_obj]

theorem eventsBody_noMatch (pfs dfs : List (String × Json)) (mv lv : Int) (now : String)
    (hres : ((lookupJ pfs "result").getD Json.null).isTruthy = true)
    (hdata : (lookupJ pfs "data").getD (Json.obj []) = Json.obj dfs)
    (hmatch : ((lookupJ dfs "match").getD Json.null).isTruthy = false) :
    eventsBody (Json.obj pfs) mv lv now =
      some "⚠️ No match details returned for the given match_id." := by
  simp [eventsBody, pyGetD_obj, hres, hdata, hmatch]

theorem eventsBody_noEvents (pfs dfs mfs : List (String × Json)) (mv lv : Int) (now : String)
    (home away status : String)
    (hres : ((lookupJ pfs "result").getD Json.null).isTruthy = true)
    (hdata : (lookupJ pfs "data").getD (Json.obj []) = Json.obj dfs)
    (hmatch : (lookupJ dfs "match").getD Json.null = Json.obj mfs)
    (hne : mfs ≠ [])
    (hh : pyOrGetStr (Json.obj mfs) "home" "name" "Home" = some home)
    (ha : pyOrGetStr (Json.obj mfs) "away" "name" "Away" = some away)
    (hs : pyOrGetStr (Json.obj mfs) "status" "strStatus" "Unknown" = some status)
    (hev : ((lookupJ mfs "events").getD (Json.arr [])).isTruthy = false) :
    eventsBody (Json.obj pfs) mv lv now =
      some ("⚠️ No events available for match " ++ toString mv ++ ".") := by
  have htr : (Json.obj mfs).isTruthy = true := by
    simp [Json.isTruthy, List.isEmpty_iff, hne]
  simp [eventsBody, pyGetD_obj, hres, hdata, hmatch, htr, hh, ha, hs, hev]

theorem eventsBody_success (pfs dfs mfs : List (String × Json)) (xs : List Json)
    (lines : List String) (mv lv : Int) (now : String)
    (home away status : String)
    (hres : ((lookupJ pfs "result").getD Json.null).isTruthy = true)
    (hdata : (lookupJ pfs "data").getD (Json.obj []) = Json.obj dfs)
    (hmatch : (lookupJ dfs "match").getD Json.null = Json.obj mfs)
    (hne : mfs ≠ [])
    (hh : pyOrGetStr (Json.obj mfs) "home" "name" "Home" = some home)
    (ha : pyOrGetStr (Json.obj mfs) "away" "name" "Away" = some away)
    (hs : pyOrGetStr (Json.obj mfs) "status" "strStatus" "Unknown" = some status)
    (hev : (lookupJ mfs "events").getD (Json.arr []) = Json.arr xs)
    (hxs : xs ≠ [])
    (hlines : mapLines eventLine (eventsPreviewOf xs lv) = some lines) :
    eventsBody (Json.obj pfs) mv lv now =
      some (eventsReport home away status xs.length (eventsPreviewOf xs lv).length lv
        (String.intercalate "\n" lines) (strD pfs "message" "Success") now) := by
  have htr : (Json.obj mfs).isTruthy = true := by
    simp [Json.isTruthy, List.isEmpty_iff, hne]
  have htr2 : (Json.arr xs).isTruthy = true := by
    simp [Json.isTruthy, List.isEmpty_iff, hxs]
  simp [eventsBody, pyGetD_obj, hres, hdata, hmatch, htr, hh, ha, hs, hev, htr2, hlines, pyGetStr_obj]

/-! ### Marker machinery: the fixed emoji prefixes of returned strings -/

theorem marked_append (m a b : String) (h : marked m a) : marked m (a ++ b) := by
  unfold marked at *
  rw [String.data_append]
  exact h.trans (List.prefix_append a.data b.data)

theorem marked_head {m s : String} (hm : m.data ≠ []) (h : marked m s) :
    s.data.head? = m.data.head? := by
  rcases h with ⟨t, ht⟩
  rw [← ht]
  cases hd : m.data with
  | nil => exact absurd hd hm
  | cons c cs => simp

/-- Exactly one marker can head a string: the three marker glyphs differ. -/
theorem markers_exclusive (s : String) :
    ¬ (marked "❌" s ∧ marked "⚠️" s) ∧
    ¬ (marked "❌" s ∧ marked "📊" s) ∧
    ¬ (marked "⚠️" s ∧ marked "📊" s) := by
  refine ⟨fun h => ?_, fun h => ?_, fun h => ?_⟩ <;>
  · obtain ⟨h1, h2⟩ := h
    have a1 := marked_head (by decide) h1
    have a2 := marked_head (by decide) h2
    rw [a1] at a2
    exact absurd a2 (by decide)

/-! ### Claim theorems -/

/-- The request a validated `list_seasons` call sends, for every network
outcome. -/
theorem list_seasons_request (pn ps key now : String) (net : HttpOutcome) (a b : Int)
    (h1 : parseClampedArg pn 1 "page_number" = Sum.inr a)
    (h2 : parseClampedArg ps 20 "page_size" = Sum.inr b)
    (hk : ¬ pyStrip key = "") :
    (list_seasons pn ps key net now).request =
      some (buildParams (pyStrip key) "SeasonList"
        [("page_number", toString a), ("page_size", toString b)]) := by
  rw [list_seasons_eq pn ps key now net a b h1 h2]
  cases ho : (_perform_request key "SeasonList"
      [("page_number", toString a), ("page_size", toString b)] net).outcome <;>
    simp [ho, (perform_sent key "SeasonList"
      [("page_number", toString a), ("page_size", toString b)] net hk).1]

/-- The request a validated `list_season_matches` call sends, for every
network outcome. -/
theorem list_season_matches_request (sid pn ps key now : String) (net : HttpOutcome)
    (sv a b : Int)
    (h0 : parseIdArg sid "season_id" = Sum.inr sv)
    (h1 : parseClampedArg pn 1 "page_number" = Sum.inr a)
    (h2 : parseClampedArg ps 20 "page_size" = Sum.inr b)
    (hk : ¬ pyStrip key = "") :
    (list_season_matches sid pn ps key net now).request =
      some (buildParams (pyStrip key) "SeasonMatchList"
        [("season_id", toString sv), ("page_number", toString a),
         ("page_size", toString b)]) := by
  rw [list_season_matches_eq sid pn ps key now net sv a b h0 h1 h2]
  cases ho : (_perform_request key "SeasonMatchList"
      [("season_id", toString sv), ("page_number", toString a),
       ("page_size", toString b)] net).outcome <;>
    simp [ho, (perform_sent key "SeasonMatchList"
      [("season_id", toString sv), ("page_number", toString a),
       ("page_size", toString b)] net hk).1]

/-- Claim C5: every supplied integer-parsable `page_number` below 1 is sent
upstream as exactly `"1"`, whatever the (valid) `page_size` is, and
symmetrically for `page_size` — for both `list_seasons` and
`list_season_matches` (defaults `1` and `20` when unsupplied); every
supplied integer-parsable `limit` outside `[1, 50]` makes
`get_match_events` run its pipeline with the truncation bound
(`eventsBody`, hence `eventsPreviewOf`) equal to the nearer boundary,
exactly 1 resp. 50 (default 10 when unsupplied). -/
theorem C5_clamping (pn ps lim sid mid key now : String) (net : HttpOutcome)
    (n m k a b sv mv : Int)
    (hk : ¬ pyStrip key = "")
    (h1 : parseClampedArg pn 1 "page_number" = Sum.inr a)
    (h2 : parseClampedArg ps 20 "page_size" = Sum.inr b)
    (hsid : parseIdArg sid "season_id" = Sum.inr sv)
    (hmid : parseIdArg mid "match_id" = Sum.inr mv)
    (hl : parsePyInt (pyStrip lim) = some k) :
    (parsePyInt (pyStrip pn) = some n → n < 1 →
      (list_seasons pn ps key net now).request.bind
          (fun prms => lookupS prms "page_number") = some "1" ∧
      (list_season_matches sid pn ps key net now).request.bind
          (fun prms => lookupS prms "page_number") = some "1") ∧
    (parsePyInt (pyStrip ps) = some m → m < 1 →
      (list_seasons pn ps key net now).request.bind
          (fun prms => lookupS prms "page_size") = some "1" ∧
      (list_season_matches sid pn ps key net now).request.bind
          (fun prms => lookupS prms "page_size") = some "1") ∧
    ((k < 1 → get_match_events mid lim key net now =
        (let req := _perform_request key "MatchEventList" [("match_id", toString mv)] net
         match req.outcome with
         | Sum.inl err => ⟨some err, req.sent, req.logged⟩
         | Sum.inr payload => ⟨eventsBody payload mv 1 now, req.sent, req.logged⟩)) ∧
     (50 < k → get_match_events mid lim key net now =
        (let req := _perform_request key "MatchEventList" [("match_id", toString mv)] net
         match req.outcome with
         | Sum.inl err => ⟨some err, req.sent, req.logged⟩
         | Sum.inr payload => ⟨eventsBody payload mv 50 now, req.sent, req.logged⟩))) ∧
    (parseClampedArg "" 1 "page_number" = Sum.inr 1 ∧
     parseClampedArg "" 20 "page_size" = Sum.inr 20 ∧
     parseLimitArg "" = Sum.inr 10) ∧
    ((list_seasons "" "" key net now).request.bind
        (fun prms => lookupS prms "page_number") = some "1" ∧
     (list_seasons "" "" key net now).request.bind
        (fun prms => lookupS prms "page_size") = some "20") := by
  have hreq1 := list_seasons_request pn ps key now net a b h1 h2 hk
  have hreq2 := list_season_matches_request sid pn ps key now net sv a b hsid h1 h2 hk
  have e3 : parseClampedArg "" 1 "page_number" = Sum.inr 1 :=
    parseClampedArg_empty 1 "page_number" rfl
  have e4 : parseClampedArg "" 20 "page_size" = Sum.inr 20 :=
    parseClampedArg_empty 20 "page_size" rfl
  have hreq3 := list_seasons_request "" "" key now net 1 20 e3 e4 hk
  refine ⟨?_, ?_, ⟨?_, ?_⟩, ⟨e3, e4, rfl⟩, ?_⟩
  · intro hpn hn
    have ha : a = 1 := by
      have h' := parseClampedArg_parsed 1 "page_number" hpn
      rw [h1] at h'
      have h'' := Sum.inr.inj h'
      have hmx : max 1 n = 1 := max_eq_left (by omega)
      omega
    constructor
    · rw [hreq1, ha]
      simp [buildParams, lookupS] <;> rfl
    · rw [hreq2, ha]
      simp [buildParams, lookupS] <;> rfl
  · intro hps hm
    have hb : b = 1 := by
      have h' := parseClampedArg_parsed 20 "page_size" hps
      rw [h2] at h'
      have h'' := Sum.inr.inj h'
      have hmx : max 1 m = 1 := max_eq_left (by omega)
      omega
    constructor
    · rw [hreq1, hb]
      simp [buildParams, lookupS] <;> rfl
    · rw [hreq2, hb]
      simp [buildParams, lookupS] <;> rfl
  · intro hk1
    have hla : parseLimitArg lim = Sum.inr 1 := by
      rw [parseLimitArg_parsed hl]
      congr 1
      omega
    exact get_match_events_eq mid lim key now net mv 1 hmid hla
  · intro hk50
    have hla : parseLimitArg lim = Sum.inr 50 := by
      rw [parseLimitArg_parsed hl]
      congr 1
      omega
    exact get_match_events_eq mid lim key now net mv 50 hmid hla
  · constructor
    · rw [hreq3]
      simp [buildParams, lookupS] <;> rfl
    · rw [hreq3]
      simp [buildParams, lookupS] <;> rfl

/-- Witness for C5: `page_number="0"` is sent as `"1"` even though the
accompanying `page_size="30"` is valid and sent as `"30"`; `limit="100"`
makes the events pipeline truncate with bound exactly 50. -/
theorem C5_clamping_witness :
    ((list_seasons "0" "30" "k" (HttpOutcome.transportError "t") "TS").request.bind
      (fun prms => lookupS prms "page_number") = some "1" ∧
     (list_season_matches "5" "0" "30" "k" (HttpOutcome.transportError "t") "TS").request.bind
      (fun prms => lookupS prms "page_number") = some "1") ∧
    get_match_events "7" "100" "k" (HttpOutcome.transportError "t") "TS" =
      (let req := _perform_request "k" "MatchEventList"
          [("match_id", toString (7 : Int))] (HttpOutcome.transportError "t")
       match req.outcome with
       | Sum.inl err => ⟨some err, req.sent, req.logged⟩
       | Sum.inr payload => ⟨eventsBody payload 7 50 "TS", req.sent, req.logged⟩) :=
  ⟨(C5_clamping "0" "30" "100" "5" "7" "k" "TS" (HttpOutcome.transportError "t")
      0 0 100 1 30 5 7 (by decide) (by decide) (by decide) (by decide) (by decide)
      (by decide)).1 (by decide) (by decide),
   (C5_clamping "0" "30" "100" "5" "7" "k" "TS" (HttpOutcome.transportError "t")
      0 0 100 1 30 5 7 (by decide) (by decide) (by decide) (by decide) (by decide)
      (by decide)).2.2.1.2 (by decide)⟩

/-- Claim C4: an empty or non-integer `season_id`/`match_id` makes the tool
fail immediately — an `❌` message naming the offending raw value (embedded
verbatim when the trimmed value is non-empty; the fixed "is required."
message when it is empty) — with no network request issued. -/
theorem C4_invalid_ids (sid mid pn ps lim key now : String) (net1 net2 : HttpOutcome)
    (hs : pyStrip sid = "" ∨ parsePyInt (pyStrip sid) = none)
    (hm : pyStrip mid = "" ∨ parsePyInt (pyStrip mid) = none) :
    ((list_season_matches sid pn ps key net1 now).request = none ∧
     (∃ e, (list_season_matches sid pn ps key net1 now).output = some e ∧
       marked "❌" e ∧
       (pyStrip sid = "" → e = "❌ Error: season_id is required.") ∧
       (¬ pyStrip sid = "" → e = "❌ Error: Invalid season_id value: " ++ sid ∧
         sid.data <:+: e.data))) ∧
    ((get_match_events mid lim key net2 now).request = none ∧
     (∃ e, (get_match_events mid lim key net2 now).output = some e ∧
       marked "❌" e ∧
       (pyStrip mid = "" → e = "❌ Error: match_id is required.") ∧
       (¬ pyStrip mid = "" → e = "❌ Error: Invalid match_id value: " ++ mid ∧
         mid.data <:+: e.data))) := by
  constructor
  · by_cases h0 : pyStrip sid = ""
    · have e0 : parseIdArg sid "season_id" = Sum.inl "❌ Error: season_id is required." := by
        simp [parseIdArg, h0]
      refine ⟨by simp [list_season_matches, e0, noCallResult],
        "❌ Error: season_id is required.", by simp [list_season_matches, e0, noCallResult],
        by decide, fun _ => rfl, fun hc => absurd h0 hc⟩
    · have hp : parsePyInt (pyStrip sid) = none := hs.resolve_left h0
      have e0 : parseIdArg sid "season_id" =
          Sum.inl ("❌ Error: Invalid season_id value: " ++ sid) := by
        simp [parseIdArg, h0, hp]
      refine ⟨by simp [list_season_matches, e0, noCallResult],
        "❌ Error: Invalid season_id value: " ++ sid,
        by simp [list_season_matches, e0, noCallResult], ?_, fun hc => absurd hc h0,
        fun _ => ⟨rfl, ?_⟩⟩
      · exact marked_append _ _ _ (by decide)
      · exact ⟨"❌ Error: Invalid season_id value: ".data, [],
          by simp [String.data_append]⟩
  · by_cases h0 : pyStrip mid = ""
    · have e0 : parseIdArg mid "match_id" = Sum.inl "❌ Error: match_id is required." := by
        simp [parseIdArg, h0]
      refine ⟨by simp [get_match_events, e0, noCallResult],
        "❌ Error: match_id is required.", by simp [get_match_events, e0, noCallResult],
        by decide, fun _ => rfl, fun hc => absurd h0 hc⟩
    · have hp : parsePyInt (pyStrip mid) = none := hm.resolve_left h0
      have e0 : parseIdArg mid "match_id" =
          Sum.inl ("❌ Error: Invalid match_id value: " ++ mid) := by
        simp [parseIdArg, h0, hp]
      refine ⟨by simp [get_match_events, e0, noCallResult],
        "❌ Error: Invalid match_id value: " ++ mid,
        by simp [get_match_events, e0, noCallResult], ?_, fun hc => absurd hc h0,
        fun _ => ⟨rfl, ?_⟩⟩
      · exact marked_append _ _ _ (by decide)
      · exact ⟨"❌ Error: Invalid match_id value: ".data, [],
          by simp [String.data_append]⟩

/-- Witness for C4: `season_id="abc"` yields the invalid-value error and no
request. -/
theorem C4_invalid_ids_witness :
    (list_season_matches "abc" "" "" "k" (HttpOutcome.transportError "t") "TS").request = none ∧
    (get_match_events "" "" "k" (HttpOutcome.transportError "t") "TS").request = none :=
  ⟨(C4_invalid_ids "abc" "" "" "" "" "k" "TS" (HttpOutcome.transportError "t")
      (HttpOutcome.transportError "t") (by decide) (by decide)).1.1,
   (C4_invalid_ids "abc" "" "" "" "" "k" "TS" (HttpOutcome.transportError "t")
      (HttpOutcome.transportError "t") (by decide) (by decide)).2.1⟩

/-- Claim C6: a completed HTTP exchange with non-2xx status yields exactly
`❌ API Error: <status>`; a transport failure (including timeout) yields
`❌ Error: <message>`; a 2xx response whose body is not valid JSON yields
the fixed parse-error string — for each of the three tools. -/
theorem C6_failure_classification (pn ps sid mid lim key now : String)
    (status okStatus : Nat) (body : Option Json) (msg : String) (a b sv mv lv : Int)
    (hk : ¬ pyStrip key = "")
    (h1 : parseClampedArg pn 1 "page_number" = Sum.inr a)
    (h2 : parseClampedArg ps 20 "page_size" = Sum.inr b)
    (h0 : parseIdArg sid "season_id" = Sum.inr sv)
    (h3 : parseIdArg mid "match_id" = Sum.inr mv)
    (h4 : parseLimitArg lim = Sum.inr lv)
    (hst : status < 200 ∨ 300 ≤ status)
    (hok : 200 ≤ okStatus ∧ okStatus < 300) :
    ((list_seasons pn ps key (HttpOutcome.response status body) now).output =
       some ("❌ API Error: " ++ toString status) ∧
     (list_season_matches sid pn ps key (HttpOutcome.response status body) now).output =
       some ("❌ API Error: " ++ toString status) ∧
     (get_match_events mid lim key (HttpOutcome.response status body) now).output =
       some ("❌ API Error: " ++ toString status)) ∧
    ((list_seasons pn ps key (HttpOutcome.transportError msg) now).output =
       some ("❌ Error: " ++ msg) ∧
     (list_season_matches sid pn ps key (HttpOutcome.transportError msg) now).output =
       some ("❌ Error: " ++ msg) ∧
     (get_match_events mid lim key (HttpOutcome.transportError msg) now).output =
       some ("❌ Error: " ++ msg)) ∧
    ((list_seasons pn ps key (HttpOutcome.response okStatus none) now).output =
       some "❌ Error: Received invalid JSON from Korastats." ∧
     (list_season_matches sid pn ps key (HttpOutcome.response okStatus none) now).output =
       some "❌ Error: Received invalid JSON from Korastats." ∧
     (get_match_events mid lim key (HttpOutcome.response okStatus none) now).output =
       some "❌ Error: Received invalid JSON from Korastats.") := by
  refine ⟨⟨?_, ?_, ?_⟩, ⟨?_, ?_, ?_⟩, ⟨?_, ?_, ?_⟩⟩
  · rw [list_seasons_eq pn ps key now _ a b h1 h2]
    simp only [perform_status _ _ _ _ _ hk hst]
  · rw [list_season_matches_eq sid pn ps key now _ sv a b h0 h1 h2]
    simp only [perform_status _ _ _ _ _ hk hst]
  · rw [get_match_events_eq mid lim key now _ mv lv h3 h4]
    simp only [perform_status _ _ _ _ _ hk hst]
  · rw [list_seasons_eq pn ps key now _ a b h1 h2]
    simp only [perform_transport _ _ _ _ hk]
  · rw [list_season_matches_eq sid pn ps key now _ sv a b h0 h1 h2]
    simp only [perform_transport _ _ _ _ hk]
  · rw [get_match_events_eq mid lim key now _ mv lv h3 h4]
    simp only [perform_transport _ _ _ _ hk]
  · rw [list_seasons_eq pn ps key now _ a b h1 h2]
    simp only [perform_badjson _ _ _ _ hk hok]
  · rw [list_season_matches_eq sid pn ps key now _ sv a b h0 h1 h2]
    simp only [perform_badjson _ _ _ _ hk hok]
  · rw [get_match_events_eq mid lim key now _ mv lv h3 h4]
    simp only [perform_badjson _ _ _ _ hk hok]

/-- Witness for C6: a mocked 404 yields `❌ API Error: 404`. -/
theorem C6_failure_classification_witness :
    (get_match_events "7" "" "k" (HttpOutcome.response 404 none) "TS").output =
      some ("❌ API Error: " ++ toString 404) :=
  (C6_failure_classification "" "" "5" "7" "" "k" "TS" 404 200 none "boom" 1 20 5 7 10
    (by decide) (by decide) (by decide) (by decide) (by decide) (by decide)
    (by omega) (by omega)).1.2.2

/-- Claim C3 counterexample: with the secret key empty, an input whose
`match_id` fails validation returns the validation error, not the
`ConfigurationError` string — so "every tool returns a ConfigurationError
string for every input" is false as stated. -/
theorem C3_counterexample :
    (get_match_events "abc" "" "" (HttpOutcome.transportError "t") "TS").output =
      some "❌ Error: Invalid match_id value: abc" ∧
    ¬ (get_match_events "abc" "" "" (HttpOutcome.transportError "t") "TS").output =
      some missingKeyMsg := by
  constructor
  · rfl
  · decide

/-- Claim C3 amended: when the secret key is empty or whitespace-only, no
tool ever issues a network request, and every input that passes the input validation of the tool yields the `ConfigurationError` string. -/
theorem C3_missing_key (pn ps sid mid lim key now : String) (net1 net2 net3 : HttpOutcome)
    (hk : pyStrip key = "") :
    ((list_seasons pn ps key net1 now).request = none ∧
     (list_season_matches sid pn ps key net2 now).request = none ∧
     (get_match_events mid lim key net3 now).request = none) ∧
    (((parseClampedArg pn 1 "page_number").isRight = true →
      (parseClampedArg ps 20 "page_size").isRight = true →
      (list_seasons pn ps key net1 now).output = some missingKeyMsg) ∧
     ((parseIdArg sid "season_id").isRight = true →
      (parseClampedArg pn 1 "page_number").isRight = true →
      (parseClampedArg ps 20 "page_size").isRight = true →
      (list_season_matches sid pn ps key net2 now).output = some missingKeyMsg) ∧
     ((parseIdArg mid "match_id").isRight = true →
      (parseLimitArg lim).isRight = true →
      (get_match_events mid lim key net3 now).output = some missingKeyMsg)) := by
  have hreq := perform_noKey key
  refine ⟨⟨?_, ?_, ?_⟩, ?_, ?_, ?_⟩
  · cases h1 : parseClampedArg pn 1 "page_number" with
    | inl e => simp [list_seasons, h1, noCallResult]
    | inr a =>
      cases h2 : parseClampedArg ps 20 "page_size" with
      | inl e => simp [list_seasons, h1, h2, noCallResult]
      | inr b => rw [list_seasons_eq pn ps key now net1 a b h1 h2]; simp [hreq _ _ net1 hk]
  · cases h0 : parseIdArg sid "season_id" with
    | inl e => simp [list_season_matches, h0, noCallResult]
    | inr s =>
      cases h1 : parseClampedArg pn 1 "page_number" with
      | inl e => simp [list_season_matches, h0, h1, noCallResult]
      | inr a =>
        cases h2 : parseClampedArg ps 20 "page_size" with
        | inl e => simp [list_season_matches, h0, h1, h2, noCallResult]
        | inr b =>
          rw [list_season_matches_eq sid pn ps key now net2 s a b h0 h1 h2]
          simp [hreq _ _ net2 hk]
  · cases h0 : parseIdArg mid "match_id" with
    | inl e => simp [get_match_events, h0, noCallResult]
    | inr mv =>
      cases h1 : parseLimitArg lim with
      | inl e => simp [get_match_events, h0, h1, noCallResult]
      | inr lv => rw [get_match_events_eq mid lim key now net3 mv lv h0 h1]; simp [hreq _ _ net3 hk]
  · intro hp1 hp2
    cases h1 : parseClampedArg pn 1 "page_number" with
    | inl e => rw [h1] at hp1; simp at hp1
    | inr a =>
      cases h2 : parseClampedArg ps 20 "page_size" with
      | inl e => rw [h2] at hp2; simp at hp2
      | inr b => rw [list_seasons_eq pn ps key now net1 a b h1 h2]; simp [hreq _ _ net1 hk]
  · intro hp0 hp1 hp2
    cases h0 : parseIdArg sid "season_id" with
    | inl e => rw [h0] at hp0; simp at hp0
    | inr s =>
      cases h1 : parseClampedArg pn 1 "page_number" with
      | inl e => rw [h1] at hp1; simp at hp1
      | inr a =>
        cases h2 : parseClampedArg ps 20 "page_size" with
        | inl e => rw [h2] at hp2; simp at hp2
        | inr b =>
          rw [list_season_matches_eq sid pn ps key now net2 s a b h0 h1 h2]
          simp [hreq _ _ net2 hk]
  · intro hp0 hp1
    cases h0 : parseIdArg mid "match_id" with
    | inl e => rw [h0] at hp0; simp at hp0
    | inr mv =>
      cases h1 : parseLimitArg lim with
      | inl e => rw [h1] at hp1; simp at hp1
      | inr lv => rw [get_match_events_eq mid lim key now net3 mv lv h0 h1]; simp [hreq _ _ net3 hk]

/-- Witness for C3 (amended): whitespace-only key, valid inputs. -/
theorem C3_missing_key_witness :
    (get_match_events "7" "" " " (HttpOutcome.transportError "t") "TS").output =
      some missingKeyMsg :=
  (C3_missing_key "" "" "5" "7" "" " " "TS" (HttpOutcome.transportError "t")
    (HttpOutcome.transportError "t") (HttpOutcome.transportError "t")
    (by decide)).2.2.2 (by decide) (by decide)

/-- Claim C2: whenever the envelope success flag is falsy or absent
(`root.result` for the nested tools, top-level `result` for
`get_match_events`), the tool returns `❌ API Error: <message>` with the
envelope message (default "Korastats API returned an error." when
absent).  The right-hand sides below depend only on the envelope `message` entry — the payload subtree (`object` / `data`) is never
inspected. -/
theorem C2_envelope_error (pn ps sid mid lim key now : String)
    (pfs rfs qfs sfs efs : List (String × Json)) (a b sv mv lv : Int)
    (hk : ¬ pyStrip key = "")
    (h1 : parseClampedArg pn 1 "page_number" = Sum.inr a)
    (h2 : parseClampedArg ps 20 "page_size" = Sum.inr b)
    (h0 : parseIdArg sid "season_id" = Sum.inr sv)
    (h3 : parseIdArg mid "match_id" = Sum.inr mv)
    (h4 : parseLimitArg lim = Sum.inr lv)
    (hroot1 : (lookupJ pfs "root").getD (Json.obj []) = Json.obj rfs)
    (hres1 : ((lookupJ rfs "result").getD Json.null).isTruthy = false)
    (hroot2 : (lookupJ qfs "root").getD (Json.obj []) = Json.obj sfs)
    (hres2 : ((lookupJ sfs "result").getD Json.null).isTruthy = false)
    (hres3 : ((lookupJ efs "result").getD Json.null).isTruthy = false) :
    (list_seasons pn ps key (HttpOutcome.response 200 (some (Json.obj pfs))) now).output =
      some ("❌ API Error: " ++ strD rfs "message" "Korastats API returned an error.") ∧
    (list_season_matches sid pn ps key (HttpOutcome.response 200 (some (Json.obj qfs))) now).output =
      some ("❌ API Error: " ++ strD sfs "message" "Korastats API returned an error.") ∧
    (get_match_events mid lim key (HttpOutcome.response 200 (some (Json.obj efs))) now).output =
      some ("❌ API Error: " ++ strD efs "message" "Korastats API returned an error.") := by
  refine ⟨?_, ?_, ?_⟩
  · rw [list_seasons_eq pn ps key now _ a b h1 h2]
    simp only [perform_payload _ _ _ 200 _ hk (by omega)]
    exact seasonsBody_err pfs rfs now hroot1 hres1
  · rw [list_season_matches_eq sid pn ps key now _ sv a b h0 h1 h2]
    simp only [perform_payload _ _ _ 200 _ hk (by omega)]
    exact matchesBody_err qfs sfs a now hroot2 hres2
  · rw [get_match_events_eq mid lim key now _ mv lv h3 h4]
    simp only [perform_payload _ _ _ 200 _ hk (by omega)]
    exact eventsBody_err efs mv lv now hres3

/-- Witness for C2: envelope `{result: false, message: "Season not found"}`. -/
theorem C2_envelope_error_witness :
    (get_match_events "7" "" "k"
        (HttpOutcome.response 200 (some (Json.obj
          [("result", Json.bool false), ("message", Json.str "Season not found"),
           ("data", Json.obj [("match", Json.num 3)])]))) "TS").output =
      some ("❌ API Error: " ++ strD
        [("result", Json.bool false), ("message", Json.str "Season not found"),
         ("data", Json.obj [("match", Json.num 3)])] "message" "Korastats API returned an error.") :=
  (C2_envelope_error "" "" "5" "7" "" "k" "TS"
    [("root", Json.obj [("result", Json.bool false)])] [("result", Json.bool false)]
    [("root", Json.obj [("result", Json.bool false)])] [("result", Json.bool false)]
    [("result", Json.bool false), ("message", Json.str "Season not found"),
     ("data", Json.obj [("match", Json.num 3)])]
    1 20 5 7 10 (by decide) (by decide) (by decide) (by decide) (by decide) (by decide)
    rfl (by decide) rfl (by decide) (by decide)).2.2

/-- Claim C10: in a successful `list_season_matches` report the
`Page: X of Y` current-page value is `toString` of the validated, clamped
`page_number` (its right-hand side never consults the `current_page` of the payload), while in a successful `list_seasons` report the
current-page value is the `current_page` field of the payload rendered through
`str()`, defaulting to "Unknown" when absent. -/
theorem C10_page_source (sid pn ps key now : String) (a b sv : Int)
    (pfs rfs ofs : List (String × Json)) (xs : List Json)
    (mlines slines : List String) (v : Json)
    (hk : ¬ pyStrip key = "")
    (h0 : parseIdArg sid "season_id" = Sum.inr sv)
    (h1 : parseClampedArg pn 1 "page_number" = Sum.inr a)
    (h2 : parseClampedArg ps 20 "page_size" = Sum.inr b)
    (hroot : (lookupJ pfs "root").getD (Json.obj []) = Json.obj rfs)
    (hres : ((lookupJ rfs "result").getD Json.null).isTruthy = true)
    (hobj : (lookupJ rfs "object").getD (Json.obj []) = Json.obj ofs)
    (hdata : (lookupJ ofs "Data").getD (Json.arr []) = Json.arr xs)
    (hne : xs ≠ [])
    (hml : mapLines matchLine (topPreview xs) = some mlines)
    (hsl : mapLines seasonLine (topPreview xs) = some slines) :
    (list_season_matches sid pn ps key (HttpOutcome.response 200 (some (Json.obj pfs))) now).output =
      some (matchesReport xs.length (strD ofs "RowsCount" "Unknown") (toString a)
        (strD ofs "PageCount" "Unknown") (String.intercalate "\n" mlines)
        (strD rfs "message" "Success") now) ∧
    (list_seasons pn ps key (HttpOutcome.response 200 (some (Json.obj pfs))) now).output =
      some (seasonsReport xs.length (strD ofs "total_records" "Unknown")
        (strD ofs "pages" "Unknown") (strD ofs "current_page" "Unknown")
        (String.intercalate "\n" slines) (strD rfs "message" "Success") now) ∧
    strD (("current_page", v) :: ofs) "current_page" "Unknown" = pyStr v ∧
    (lookupJ ofs "current_page" = none → strD ofs "current_page" "Unknown" = "Unknown") := by
  refine ⟨?_, ?_, by simp [strD, lookupJ], fun hnone => by simp [strD, hnone]⟩
  · rw [list_season_matches_eq sid pn ps key now _ sv a b h0 h1 h2]
    simp only [perform_payload _ _ _ 200 _ hk (by omega)]
    exact matchesBody_success pfs rfs ofs xs mlines a now hroot hres hobj hdata hne hml
  · rw [list_seasons_eq pn ps key now _ a b h1 h2]
    simp only [perform_payload _ _ _ 200 _ hk (by omega)]
    exact seasonsBody_success pfs rfs ofs xs slines now hroot hres hobj hdata hne hsl

/-- Witness for C10: requested page 7 is printed for matches even though the
payload says `current_page: 3`, which the seasons report prints instead. -/
theorem C10_page_source_witness :
    (list_season_matches "5" "7" "" "k" (HttpOutcome.response 200 (some (Json.obj
        [("root", Json.obj [("result", Json.bool true),
          ("object", Json.obj [("Data", Json.arr [Json.obj [("matchId", Json.num 1)]]),
            ("current_page", Json.num 3)])])]))) "TS").output =
      some (matchesReport 1 (strD [("Data", Json.arr [Json.obj [("matchId", Json.num 1)]]),
          ("current_page", Json.num 3)] "RowsCount" "Unknown") (toString (7 : Int))
        (strD [("Data", Json.arr [Json.obj [("matchId", Json.num 1)]]),
          ("current_page", Json.num 3)] "PageCount" "Unknown")
        (String.intercalate "\n" ["- #1: Home vs Away | Unknown | Score N/A | Status Unknown"])
        (strD [("result", Json.bool true),
          ("object", Json.obj [("Data", Json.arr [Json.obj [("matchId", Json.num 1)]]),
            ("current_page", Json.num 3)])] "message" "Success") "TS") :=
  (C10_page_source "5" "7" "" "k" "TS" 7 20 5
    [("root", Json.obj [("result", Json.bool true),
      ("object", Json.obj [("Data", Json.arr [Json.obj [("matchId", Json.num 1)]]),
        ("current_page", Json.num 3)])])]
    [("result", Json.bool true),
      ("object", Json.obj [("Data", Json.arr [Json.obj [("matchId", Json.num 1)]]),
        ("current_page", Json.num 3)])]
    [("Data", Json.arr [Json.obj [("matchId", Json.num 1)]]), ("current_page", Json.num 3)]
    [Json.obj [("matchId", Json.num 1)]]
    ["- #1: Home vs Away | Unknown | Score N/A | Status Unknown"]
    ["- ID N/A: Unknown | Unknown | Unknown → Unknown"] Json.null
    (by decide) (by decide) (by decide) (by decide) rfl (by decide) rfl rfl
    (by decide) (by decide) (by decide)).1

/-! ### Claim C1 (corrected): header count vs preview length -/

set_option maxRecDepth 8192 in
/-- Claim C1 counterexample: on a 6-record page the seasons report renders
exactly 5 preview lines (each starting `- ID `) but its header says
`Records on page: 6` — the full upstream list length, not the preview
length. -/
theorem C1_counterexample :
    (list_seasons "" "" "k" c1net "TS").output = some c1seasonsOut ∧
    countOccs ("- Records on page: 6".data) c1seasonsOut.data = 1 ∧
    countOccs ("- Records on page: 5".data) c1seasonsOut.data = 0 ∧
    countOccs ("- ID ".data) c1seasonsOut.data = 5 := by
  refine ⟨rfl, ?_, ?_, ?_⟩ <;> decide

/-- Claim C1 amended: the seasons/matches header counts interpolate the full
record-list length `len(list)` (which equals the preview length only when
the list has at most 5 records), while the events header "Showing first"
value is the preview length `min(len(events), limit)`. -/
theorem C1_counts (pfs rfs ofs dfs mfs : List (String × Json)) (xs ys : List Json)
    (slines mlines elines : List String) (now : String) (lv pv : Int)
    (home away status : String)
    (hroot : (lookupJ pfs "root").getD (Json.obj []) = Json.obj rfs)
    (hres : ((lookupJ rfs "result").getD Json.null).isTruthy = true)
    (hobj : (lookupJ rfs "object").getD (Json.obj []) = Json.obj ofs)
    (hdata : (lookupJ ofs "Data").getD (Json.arr []) = Json.arr xs)
    (hne : xs ≠ [])
    (hsl : mapLines seasonLine (topPreview xs) = some slines)
    (hml : mapLines matchLine (topPreview xs) = some mlines)
    (hres2 : ((lookupJ dfs "result").getD Json.null).isTruthy = true)
    (hdat2 : (lookupJ dfs "data").getD (Json.obj []) = Json.obj
      [("match", Json.obj mfs)])
    (hne2 : mfs ≠ [])
    (hh : pyOrGetStr (Json.obj mfs) "home" "name" "Home" = some home)
    (ha : pyOrGetStr (Json.obj mfs) "away" "name" "Away" = some away)
    (hs : pyOrGetStr (Json.obj mfs) "status" "strStatus" "Unknown" = some status)
    (hev : (lookupJ mfs "events").getD (Json.arr []) = Json.arr ys)
    (hys : ys ≠ [])
    (hel : mapLines eventLine (eventsPreviewOf ys lv) = some elines) :
    seasonsBody (Json.obj pfs) now =
      some (seasonsReport xs.length (strD ofs "total_records" "Unknown")
        (strD ofs "pages" "Unknown") (strD ofs "current_page" "Unknown")
        (String.intercalate "\n" slines) (strD rfs "message" "Success") now) ∧
    matchesBody (Json.obj pfs) pv now =
      some (matchesReport xs.length (strD ofs "RowsCount" "Unknown") (toString pv)
        (strD ofs "PageCount" "Unknown") (String.intercalate "\n" mlines)
        (strD rfs "message" "Success") now) ∧
    eventsBody (Json.obj dfs) 7 lv now =
      some (eventsReport home away status ys.length (eventsPreviewOf ys lv).length lv
        (String.intercalate "\n" elines) (strD dfs "message" "Success") now) ∧
    (topPreview xs).length = min xs.length 5 ∧
    (eventsPreviewOf ys lv).length = min ys.length lv.toNat ∧
    (xs.length ≤ 5 → xs.length = (topPreview xs).length) ∧
    (5 < xs.length → ¬ xs.length = (topPreview xs).length) := by
  refine ⟨seasonsBody_success pfs rfs ofs xs slines now hroot hres hobj hdata hne hsl,
    matchesBody_success pfs rfs ofs xs mlines pv now hroot hres hobj hdata hne hml,
    eventsBody_success dfs [("match", Json.obj mfs)] mfs ys elines 7 lv now home away status
      hres2 hdat2 (by simp [lookupJ]) hne2 hh ha hs hev hys hel, ?_, ?_, ?_, ?_⟩
  · simp [topPreview, Nat.min_comm]
  · simp [eventsPreviewOf, Nat.min_comm]
  · intro h5
    simp [topPreview, Nat.min_comm]
    omega
  · intro h5
    simp [topPreview, Nat.min_comm]
    omega

/-- Witness for C1 (amended): concrete 6-season page and a 3-event match
with limit 2. -/
theorem C1_counts_witness :
    seasonsBody (Json.obj [("root", Json.obj [("result", Json.bool true),
        ("object", Json.obj [("Data", Json.arr [Json.obj [("id", Json.num 1)],
          Json.obj [("id", Json.num 2)], Json.obj [("id", Json.num 3)],
          Json.obj [("id", Json.num 4)], Json.obj [("id", Json.num 5)],
          Json.obj [("id", Json.num 6)]])])])]) "TS" =
      some (seasonsReport 6 (strD [("Data", Json.arr [Json.obj [("id", Json.num 1)],
          Json.obj [("id", Json.num 2)], Json.obj [("id", Json.num 3)],
          Json.obj [("id", Json.num 4)], Json.obj [("id", Json.num 5)],
          Json.obj [("id", Json.num 6)]])] "total_records" "Unknown")
        (strD [("Data", Json.arr [Json.obj [("id", Json.num 1)],
          Json.obj [("id", Json.num 2)], Json.obj [("id", Json.num 3)],
          Json.obj [("id", Json.num 4)], Json.obj [("id", Json.num 5)],
          Json.obj [("id", Json.num 6)]])] "pages" "Unknown")
        (strD [("Data", Json.arr [Json.obj [("id", Json.num 1)],
          Json.obj [("id", Json.num 2)], Json.obj [("id", Json.num 3)],
          Json.obj [("id", Json.num 4)], Json.obj [("id", Json.num 5)],
          Json.obj [("id", Json.num 6)]])] "current_page" "Unknown")
        (String.intercalate "\n" ["- ID 1: Unknown | Unknown | Unknown → Unknown",
          "- ID 2: Unknown | Unknown | Unknown → Unknown",
          "- ID 3: Unknown | Unknown | Unknown → Unknown",
          "- ID 4: Unknown | Unknown | Unknown → Unknown",
          "- ID 5: Unknown | Unknown | Unknown → Unknown"])
        (strD [("result", Json.bool true),
          ("object", Json.obj [("Data", Json.arr [Json.obj [("id", Json.num 1)],
            Json.obj [("id", Json.num 2)], Json.obj [("id", Json.num 3)],
            Json.obj [("id", Json.num 4)], Json.obj [("id", Json.num 5)],
            Json.obj [("id", Json.num 6)]])])] "message" "Success") "TS") :=
  (C1_counts [("root", Json.obj [("result", Json.bool true),
      ("object", Json.obj [("Data", Json.arr [Json.obj [("id", Json.num 1)],
        Json.obj [("id", Json.num 2)], Json.obj [("id", Json.num 3)],
        Json.obj [("id", Json.num 4)], Json.obj [("id", Json.num 5)],
        Json.obj [("id", Json.num 6)]])])])]
    [("result", Json.bool true),
      ("object", Json.obj [("Data", Json.arr [Json.obj [("id", Json.num 1)],
        Json.obj [("id", Json.num 2)], Json.obj [("id", Json.num 3)],
        Json.obj [("id", Json.num 4)], Json.obj [("id", Json.num 5)],
        Json.obj [("id", Json.num 6)]])])]
    [("Data", Json.arr [Json.obj [("id", Json.num 1)],
      Json.obj [("id", Json.num 2)], Json.obj [("id", Json.num 3)],
      Json.obj [("id", Json.num 4)], Json.obj [("id", Json.num 5)],
      Json.obj [("id", Json.num 6)]])]
    [("result", Json.bool true), ("data", Json.obj [("match", Json.obj
      [("events", Json.arr [Json.obj [], Json.obj [], Json.obj []])])])]
    [("events", Json.arr [Json.obj [], Json.obj [], Json.obj []])]
    [Json.obj [("id", Json.num 1)], Json.obj [("id", Json.num 2)],
      Json.obj [("id", Json.num 3)], Json.obj [("id", Json.num 4)],
      Json.obj [("id", Json.num 5)], Json.obj [("id", Json.num 6)]]
    [Json.obj [], Json.obj [], Json.obj []]
    ["- ID 1: Unknown | Unknown | Unknown → Unknown",
      "- ID 2: Unknown | Unknown | Unknown → Unknown",
      "- ID 3: Unknown | Unknown | Unknown → Unknown",
      "- ID 4: Unknown | Unknown | Unknown → Unknown",
      "- ID 5: Unknown | Unknown | Unknown → Unknown"]
    ["- #N/A: Home vs Away | Unknown | Score N/A | Status Unknown",
      "- #N/A: Home vs Away | Unknown | Score N/A | Status Unknown",
      "- #N/A: Home vs Away | Unknown | Score N/A | Status Unknown",
      "- #N/A: Home vs Away | Unknown | Score N/A | Status Unknown",
      "- #N/A: Home vs Away | Unknown | Score N/A | Status Unknown"]
    ["- N/AH N/A\x270\x22 Unknown: Unknown player | Event → Action (Unknown)",
      "- N/AH N/A\x270\x22 Unknown: Unknown player | Event → Action (Unknown)"]
    "TS" 2 1 "Home" "Away" "Unknown"
    rfl (by decide) rfl rfl (by decide) (by decide) (by decide) (by decide) rfl (by decide)
    (by decide) (by decide) (by decide) rfl (by decide) (by decide)).1

/-! ### Claim C9: secret-key isolation -/

theorem lookupS_filter_key (prms : List (String × String)) :
    lookupS (prms.filter (fun kv => kv.1 != "key")) "key" = none := by
  induction prms with
  | nil => rfl
  | cons p ps ih =>
      obtain ⟨k, v⟩ := p
      by_cases hk : k = "key"
      · simp [List.filter_cons, hk, ih]
      · simp [List.filter_cons, hk, lookupS, ih]

theorem buildParams_filter_key_indep (k1 k2 api : String) (extra : List (String × String)) :
    (buildParams k1 api extra).filter (fun kv => kv.1 != "key") =
      (buildParams k2 api extra).filter (fun kv => kv.1 != "key") := by
  simp [buildParams]

theorem perform_outcome_key_indep (k1 k2 api : String) (extra : List (String × String))
    (net : HttpOutcome) (h1 : ¬ pyStrip k1 = "") (h2 : ¬ pyStrip k2 = "") :
    (_perform_request k1 api extra net).outcome = (_perform_request k2 api extra net).outcome := by
  unfold _perform_request _get_api_key
  cases net with
  | transportError msg => simp [h1, h2]
  | response status body =>
      by_cases hst : status < 200 ∨ 300 ≤ status
      · simp [h1, h2, hst]
      · cases body <;> simp [h1, h2, hst]

theorem perform_logged_key_indep (k1 k2 api : String) (extra : List (String × String))
    (net : HttpOutcome) (h1 : ¬ pyStrip k1 = "") (h2 : ¬ pyStrip k2 = "") :
    (_perform_request k1 api extra net).logged = (_perform_request k2 api extra net).logged := by
  have hb := buildParams_filter_key_indep (pyStrip k1) (pyStrip k2) api extra
  unfold _perform_request _get_api_key
  cases net with
  | transportError msg => simp [h1, h2, hb]
  | response status body =>
      by_cases hst : status < 200 ∨ 300 ≤ status
      · simp [h1, h2, hst, hb]
      · cases body <;> simp [h1, h2, hst, hb]

/-- Claim C9: the secret key is placed only in the outgoing request params
(under `"key"`); the logged mapping is exactly the outgoing params with the
`"key"` entry removed (so the key never reaches the log), and the returned
string and logged mapping are identical for any two non-empty keys — the
secret never influences any returned text. -/
theorem C9_key_isolation (pn ps sid mid lim k1 k2 now : String) (net1 net2 net3 : HttpOutcome)
    (h1 : ¬ pyStrip k1 = "") (h2 : ¬ pyStrip k2 = "") :
    ((list_seasons pn ps k1 net1 now).output = (list_seasons pn ps k2 net1 now).output ∧
     (list_seasons pn ps k1 net1 now).logged = (list_seasons pn ps k2 net1 now).logged) ∧
    ((list_season_matches sid pn ps k1 net2 now).output =
       (list_season_matches sid pn ps k2 net2 now).output ∧
     (list_season_matches sid pn ps k1 net2 now).logged =
       (list_season_matches sid pn ps k2 net2 now).logged) ∧
    ((get_match_events mid lim k1 net3 now).output = (get_match_events mid lim k2 net3 now).output ∧
     (get_match_events mid lim k1 net3 now).logged = (get_match_events mid lim k2 net3 now).logged) ∧
    (∀ api extra net prms, (_perform_request k1 api extra net).sent = some prms →
       (_perform_request k1 api extra net).logged =
         some (prms.filter (fun kv => kv.1 != "key")) ∧
       lookupS prms "key" = some (pyStrip k1) ∧
       lookupS (prms.filter (fun kv => kv.1 != "key")) "key" = none) := by
  refine ⟨?_, ?_, ?_, ?_⟩
  · cases e1 : parseClampedArg pn 1 "page_number" with
    | inl e => simp [list_seasons, e1]
    | inr a =>
      cases e2 : parseClampedArg ps 20 "page_size" with
      | inl e => simp [list_seasons, e1, e2]
      | inr b =>
        rw [list_seasons_eq pn ps k1 now net1 a b e1 e2,
            list_seasons_eq pn ps k2 now net1 a b e1 e2]
        have ho := perform_outcome_key_indep k1 k2 "SeasonList"
          [("page_number", toString a), ("page_size", toString b)] net1 h1 h2
        have hl := perform_logged_key_indep k1 k2 "SeasonList"
          [("page_number", toString a), ("page_size", toString b)] net1 h1 h2
        cases hk2 : (_perform_request k2 "SeasonList"
            [("page_number", toString a), ("page_size", toString b)] net1).outcome <;>
          (rw [hk2] at ho; simp [ho, hk2, hl])
  · cases e0 : parseIdArg sid "season_id" with
    | inl e => simp [list_season_matches, e0]
    | inr s =>
      cases e1 : parseClampedArg pn 1 "page_number" with
      | inl e => simp [list_season_matches, e0, e1]
      | inr a =>
        cases e2 : parseClampedArg ps 20 "page_size" with
        | inl e => simp [list_season_matches, e0, e1, e2]
        | inr b =>
          rw [list_season_matches_eq sid pn ps k1 now net2 s a b e0 e1 e2,
              list_season_matches_eq sid pn ps k2 now net2 s a b e0 e1 e2]
          have ho := perform_outcome_key_indep k1 k2 "SeasonMatchList"
            [("season_id", toString s), ("page_number", toString a),
             ("page_size", toString b)] net2 h1 h2
          have hl := perform_logged_key_indep k1 k2 "SeasonMatchList"
            [("season_id", toString s), ("page_number", toString a),
             ("page_size", toString b)] net2 h1 h2
          cases hk2 : (_perform_request k2 "SeasonMatchList"
              [("season_id", toString s), ("page_number", toString a),
               ("page_size", toString b)] net2).outcome <;>
            (rw [hk2] at ho; simp [ho, hk2, hl])
  · cases e0 : parseIdArg mid "match_id" with
    | inl e => simp [get_match_events, e0]
    | inr mv =>
      cases e1 : parseLimitArg lim with
      | inl e => simp [get_match_events, e0, e1]
      | inr lv =>
        rw [get_match_events_eq mid lim k1 now net3 mv lv e0 e1,
            get_match_events_eq mid lim k2 now net3 mv lv e0 e1]
        have ho := perform_outcome_key_indep k1 k2 "MatchEventList"
          [("match_id", toString mv)] net3 h1 h2
        have hl := perform_logged_key_indep k1 k2 "MatchEventList"
          [("match_id", toString mv)] net3 h1 h2
        cases hk2 : (_perform_request k2 "MatchEventList"
            [("match_id", toString mv)] net3).outcome <;>
          (rw [hk2] at ho; simp [ho, hk2, hl])
  · intro api extra net prms hp
    have hs := perform_sent k1 api extra net h1
    rw [hs.1] at hp
    obtain rfl : buildParams (pyStrip k1) api extra = prms := by
      exact Option.some_injective _ hp
    refine ⟨hs.2, ?_, lookupS_filter_key _⟩
    simp [buildParams, lookupS]

/-- Witness for C9: two distinct non-empty keys give identical outputs. -/
theorem C9_key_isolation_witness :
    (list_seasons "" "" "alpha" (HttpOutcome.transportError "t") "TS").output =
      (list_seasons "" "" "beta" (HttpOutcome.transportError "t") "TS").output :=
  (C9_key_isolation "" "" "5" "7" "" "alpha" "beta" "TS" (HttpOutcome.transportError "t")
    (HttpOutcome.transportError "t") (HttpOutcome.transportError "t")
    (by decide) (by decide)).1.1

/-! ### Output-shape lemmas: every branch is timestamp-free or ends in the
timestamp, and carries a fixed marker -/

theorem parseClampedArg_err_marked {raw : String} {d : Int} {nm e : String}
    (h : parseClampedArg raw d nm = Sum.inl e) : marked "❌" e := by
  unfold parseClampedArg at h
  split at h
  · exact absurd h (by simp)
  · split at h
    · exact absurd h (by simp)
    · obtain rfl : ("❌ Error: Invalid " ++ nm ++ " value: " ++ raw) = e := by injection h
      exact marked_append _ _ _ (marked_append _ _ _ (marked_append _ _ _ (by decide)))

theorem parseIdArg_err_marked {raw : String} {nm e : String}
    (h : parseIdArg raw nm = Sum.inl e) : marked "❌" e := by
  unfold parseIdArg at h
  split at h
  · obtain rfl : ("❌ Error: " ++ nm ++ " is required.") = e := by injection h
    exact marked_append _ _ _ (marked_append _ _ _ (by decide))
  · split at h
    · exact absurd h (by simp)
    · obtain rfl : ("❌ Error: Invalid " ++ nm ++ " value: " ++ raw) = e := by injection h
      exact marked_append _ _ _ (marked_append _ _ _ (marked_append _ _ _ (by decide)))

theorem parseLimitArg_err_marked {raw e : String}
    (h : parseLimitArg raw = Sum.inl e) : marked "❌" e := by
  unfold parseLimitArg at h
  split at h
  · exact absurd h (by simp)
  · split at h
    · exact absurd h (by simp)
    · obtain rfl : ("❌ Error: Invalid limit value: " ++ raw) = e := by injection h
      exact marked_append _ _ _ (by decide)

theorem perform_err_marked {key api : String} {extra : List (String × String)}
    {net : HttpOutcome} {e : String}
    (h : (_perform_request key api extra net).outcome = Sum.inl e) : marked "❌" e := by
  by_cases hk : pyStrip key = ""
  · rw [perform_noKey key api extra net hk] at h
    obtain rfl : missingKeyMsg = e := by injection h
    decide
  · cases net with
    | transportError msg =>
        rw [perform_transport key api extra msg hk] at h
        obtain rfl : ("❌ Error: " ++ msg) = e := by injection h
        exact marked_append _ _ _ (by decide)
    | response status body =>
        by_cases hst : status < 200 ∨ 300 ≤ status
        · rw [perform_status key api extra status body hk hst] at h
          obtain rfl : ("❌ API Error: " ++ toString status) = e := by injection h
          exact marked_append _ _ _ (by decide)
        · cases body with
          | none =>
              rw [perform_badjson key api extra status hk (by omega)] at h
              obtain rfl : "❌ Error: Received invalid JSON from Korastats." = e := by injection h
              decide
          | some payload =>
              rw [perform_payload key api extra status payload hk (by omega)] at h
              exact absurd h (by simp)

theorem seasonsReport_eq_pre (count : Nat) (total pages cur linesText msg now : String) :
    seasonsReport count total pages cur linesText msg now =
      seasonsReportPre count total pages cur linesText msg ++ now := rfl

theorem matchesReport_eq_pre (count : Nat) (rows cur pages linesText msg now : String) :
    matchesReport count rows cur pages linesText msg now =
      matchesReportPre count rows cur pages linesText msg ++ now := rfl

theorem eventsReport_eq_pre (home away status : String) (total shown : Nat) (limitValue : Int)
    (linesText msg now : String) :
    eventsReport home away status total shown limitValue linesText msg now =
      eventsReportPre home away status total shown limitValue linesText msg ++ now := rfl

theorem marked_reportPre (count : Nat) (total pages cur linesText msg : String) :
    marked "📊" (seasonsReportPre count total pages cur linesText msg) := by
  unfold seasonsReportPre
  repeat apply marked_append
  decide

theorem marked_matchesPre (count : Nat) (rows cur pages linesText msg : String) :
    marked "📊" (matchesReportPre count rows cur pages linesText msg) := by
  unfold matchesReportPre
  repeat apply marked_append
  decide

theorem marked_eventsPre (home away status : String) (total shown : Nat) (limitValue : Int)
    (linesText msg : String) :
    marked "📊" (eventsReportPre home away status total shown limitValue linesText msg) := by
  unfold eventsReportPre
  repeat apply marked_append
  decide

set_option maxHeartbeats 1600000 in
/-- Shape of `seasonsBody` outputs: crash on every timestamp, a fixed
`❌`/`⚠️` string on every timestamp, or a `📊` report ending in the
timestamp. -/
theorem seasonsBody_shape (payload : Json) :
    (∀ t, seasonsBody payload t = none) ∨
    (∃ s, (∀ t, seasonsBody payload t = some s) ∧ (marked "❌" s ∨ marked "⚠️" s)) ∨
    (∃ p, (∀ t, seasonsBody payload t = some (p ++ t)) ∧ marked "📊" p) := by
  cases hroot : pyGetD payload "root" (Json.obj []) with
  | none => exact Or.inl (fun t => by simp [seasonsBody, hroot])
  | some root =>
  cases hres : pyGetD root "result" Json.null with
  | none => exact Or.inl (fun t => by simp [seasonsBody, hroot, hres])
  | some flag =>
  by_cases hf : flag.isTruthy
  · cases hobj : pyGetD root "object" (Json.obj []) with
    | none => exact Or.inl (fun t => by simp [seasonsBody, hroot, hres, hf, hobj])
    | some obj =>
    cases hdata : pyGetD obj "Data" (Json.arr []) with
    | none => exact Or.inl (fun t => by simp [seasonsBody, hroot, hres, hf, hobj, hdata])
    | some seasons =>
    by_cases hst : seasons.isTruthy
    · cases seasons with
      | arr xs =>
          cases hlines : mapLines seasonLine (topPreview xs) with
          | none => exact Or.inl (fun t => by
              simp [seasonsBody, hroot, hres, hf, hobj, hdata, hst, hlines])
          | some lines =>
          cases htot : pyGetStr obj "total_records" "Unknown" with
          | none => exact Or.inl (fun t => by
              simp [seasonsBody, hroot, hres, hf, hobj, hdata, hst, hlines, htot])
          | some total =>
          cases hpag : pyGetStr obj "pages" "Unknown" with
          | none => exact Or.inl (fun t => by
              simp [seasonsBody, hroot, hres, hf, hobj, hdata, hst, hlines, htot, hpag])
          | some pages =>
          cases hcur : pyGetStr obj "current_page" "Unknown" with
          | none => exact Or.inl (fun t => by
              simp [seasonsBody, hroot, hres, hf, hobj, hdata, hst, hlines, htot, hpag, hcur])
          | some cur =>
          cases hmsg : pyGetStr root "message" "Success" with
          | none => exact Or.inl (fun t => by
              simp [seasonsBody, hroot, hres, hf, hobj, hdata, hst, hlines, htot, hpag, hcur, hmsg])
          | some msg =>
              refine Or.inr (Or.inr ⟨seasonsReportPre xs.length total pages cur
                (String.intercalate "\n" lines) msg, fun t => ?_, marked_reportPre _ _ _ _ _ _⟩)
              simp [seasonsBody, hroot, hres, hf, hobj, hdata, hst, hlines, htot, hpag, hcur,
                hmsg, seasonsReport_eq_pre]
      | null => exact absurd hst (by simp [Json.isTruthy])
      | bool b => exact Or.inl (fun t => by
          simp [seasonsBody, hroot, hres, hf, hobj, hdata, hst])
      | num n => exact Or.inl (fun t => by
          simp [seasonsBody, hroot, hres, hf, hobj, hdata, hst])
      | str s => exact Or.inl (fun t => by
          simp [seasonsBody, hroot, hres, hf, hobj, hdata, hst])
      | obj fs => exact Or.inl (fun t => by
          simp [seasonsBody, hroot, hres, hf, hobj, hdata, hst])
    · exact Or.inr (Or.inl ⟨"⚠️ No seasons found for the requested page.",
        fun t => by simp [seasonsBody, hroot, hres, hf, hobj, hdata, hst],
        Or.inr (by decide)⟩)
  · cases hmsg : pyGetStr root "message" "Korastats API returned an error." with
    | none => exact Or.inl (fun t => by simp [seasonsBody, hroot, hres, hf, hmsg])
    | some m =>
        exact Or.inr (Or.inl ⟨"❌ API Error: " ++ m,
          fun t => by simp [seasonsBody, hroot, hres, hf, hmsg],
          Or.inl (marked_append _ _ _ (by decide))⟩)

set_option maxHeartbeats 1600000 in
/-- Shape of `matchesBody` outputs (as for `seasonsBody`). -/
theorem matchesBody_shape (payload : Json) (pv : Int) :
    (∀ t, matchesBody payload pv t = none) ∨
    (∃ s, (∀ t, matchesBody payload pv t = some s) ∧ (marked "❌" s ∨ marked "⚠️" s)) ∨
    (∃ p, (∀ t, matchesBody payload pv t = some (p ++ t)) ∧ marked "📊" p) := by
  cases hroot : pyGetD payload "root" (Json.obj []) with
  | none => exact Or.inl (fun t => by simp [matchesBody, hroot])
  | some root =>
  cases hres : pyGetD root "result" Json.null with
  | none => exact Or.inl (fun t => by simp [matchesBody, hroot, hres])
  | some flag =>
  by_cases hf : flag.isTruthy
  · cases hobj : pyGetD root "object" (Json.obj []) with
    | none => exact Or.inl (fun t => by simp [matchesBody, hroot, hres, hf, hobj])
    | some obj =>
    cases hdata : pyGetD obj "Data" (Json.arr []) with
    | none => exact Or.inl (fun t => by simp [matchesBody, hroot, hres, hf, hobj, hdata])
    | some records =>
    by_cases hst : records.isTruthy
    · cases records with
      | arr xs =>
          cases hlines : mapLines matchLine (topPreview xs) with
          | none => exact Or.inl (fun t => by
              simp [matchesBody, hroot, hres, hf, hobj, hdata, hst, hlines])
          | some lines =>
          cases hrow : pyGetStr obj "RowsCount" "Unknown" with
          | none => exact Or.inl (fun t => by
              simp [matchesBody, hroot, hres, hf, hobj, hdata, hst, hlines, hrow])
          | some rows =>
          cases hpag : pyGetStr obj "PageCount" "Unknown" with
          | none => exact Or.inl (fun t => by
              simp [matchesBody, hroot, hres, hf, hobj, hdata, hst, hlines, hrow, hpag])
          | some pages =>
          cases hmsg : pyGetStr root "message" "Success" with
          | none => exact Or.inl (fun t => by
              simp [matchesBody, hroot, hres, hf, hobj, hdata, hst, hlines, hrow, hpag, hmsg])
          | some msg =>
              refine Or.inr (Or.inr ⟨matchesReportPre xs.length rows (toString pv) pages
                (String.intercalate "\n" lines) msg, fun t => ?_, marked_matchesPre _ _ _ _ _ _⟩)
              simp [matchesBody, hroot, hres, hf, hobj, hdata, hst, hlines, hrow, hpag,
                hmsg, matchesReport_eq_pre]
      | null => exact absurd hst (by simp [Json.isTruthy])
      | bool b => exact Or.inl (fun t => by
          simp [matchesBody, hroot, hres, hf, hobj, hdata, hst])
      | num n => exact Or.inl (fun t => by
          simp [matchesBody, hroot, hres, hf, hobj, hdata, hst])
      | str s => exact Or.inl (fun t => by
          simp [matchesBody, hroot, hres, hf, hobj, hdata, hst])
      | obj fs => exact Or.inl (fun t => by
          simp [matchesBody, hroot, hres, hf, hobj, hdata, hst])
    · exact Or.inr (Or.inl ⟨"⚠️ No matches found for the supplied season.",
        fun t => by simp [matchesBody, hroot, hres, hf, hobj, hdata, hst],
        Or.inr (by decide)⟩)
  · cases hmsg : pyGetStr root "message" "Korastats API returned an error." with
    | none => exact Or.inl (fun t => by simp [matchesBody, hroot, hres, hf, hmsg])
    | some m =>
        exact Or.inr (Or.inl ⟨"❌ API Error: " ++ m,
          fun t => by simp [matchesBody, hroot, hres, hf, hmsg],
          Or.inl (marked_append _ _ _ (by decide))⟩)

set_option maxHeartbeats 3200000 in
/-- Shape of `eventsBody` outputs (flat envelope). -/
theorem eventsBody_shape (payload : Json) (mv lv : Int) :
    (∀ t, eventsBody payload mv lv t = none) ∨
    (∃ s, (∀ t, eventsBody payload mv lv t = some s) ∧ (marked "❌" s ∨ marked "⚠️" s)) ∨
    (∃ p, (∀ t, eventsBody payload mv lv t = some (p ++ t)) ∧ marked "📊" p) := by
  cases hres : pyGetD payload "result" Json.null with
  | none => exact Or.inl (fun t => by simp [eventsBody, hres])
  | some flag =>
  by_cases hf : flag.isTruthy
  · cases hdat : pyGetD payload "data" (Json.obj []) with
    | none => exact Or.inl (fun t => by simp [eventsBody, hres, hf, hdat])
    | some dataJ =>
    cases hmat : pyGetD dataJ "match" Json.null with
    | none => exact Or.inl (fun t => by simp [eventsBody, hres, hf, hdat, hmat])
    | some matchJ =>
    by_cases hmt : matchJ.isTruthy
    · cases hh : pyOrGetStr matchJ "home" "name" "Home" with
      | none => exact Or.inl (fun t => by simp [eventsBody, hres, hf, hdat, hmat, hmt, hh])
      | some home =>
      cases ha : pyOrGetStr matchJ "away" "name" "Away" with
      | none => exact Or.inl (fun t => by simp [eventsBody, hres, hf, hdat, hmat, hmt, hh, ha])
      | some away =>
      cases hs : pyOrGetStr matchJ "status" "strStatus" "Unknown" with
      | none => exact Or.inl (fun t => by
          simp [eventsBody, hres, hf, hdat, hmat, hmt, hh, ha, hs])
      | some status =>
      cases hev : pyGetD matchJ "events" (Json.arr []) with
      | none => exact Or.inl (fun t => by
          simp [eventsBody, hres, hf, hdat, hmat, hmt, hh, ha, hs, hev])
      | some events =>
      by_cases het : events.isTruthy
      · cases events with
        | arr xs =>
            cases hlines : mapLines eventLine (eventsPreviewOf xs lv) with
            | none => exact Or.inl (fun t => by
                simp [eventsBody, hres, hf, hdat, hmat, hmt, hh, ha, hs, hev, het, hlines])
            | some lines =>
            cases hmsg : pyGetStr payload "message" "Success" with
            | none => exact Or.inl (fun t => by
                simp [eventsBody, hres, hf, hdat, hmat, hmt, hh, ha, hs, hev, het, hlines, hmsg])
            | some msg =>
                refine Or.inr (Or.inr ⟨eventsReportPre home away status xs.length
                  (eventsPreviewOf xs lv).length lv (String.intercalate "\n" lines) msg,
                  fun t => ?_, marked_eventsPre _ _ _ _ _ _ _ _⟩)
                simp [eventsBody, hres, hf, hdat, hmat, hmt, hh, ha, hs, hev, het, hlines,
                  hmsg, eventsReport_eq_pre]
        | null => exact absurd het (by simp [Json.isTruthy])
        | bool b => exact Or.inl (fun t => by
            simp [eventsBody, hres, hf, hdat, hmat, hmt, hh, ha, hs, hev, het])
        | num n => exact Or.inl (fun t => by
            simp [eventsBody, hres, hf, hdat, hmat, hmt, hh, ha, hs, hev, het])
        | str s2 => exact Or.inl (fun t => by
            simp [eventsBody, hres, hf, hdat, hmat, hmt, hh, ha, hs, hev, het])
        | obj fs => exact Or.inl (fun t => by
            simp [eventsBody, hres, hf, hdat, hmat, hmt, hh, ha, hs, hev, het])
      · exact Or.inr (Or.inl ⟨"⚠️ No events available for match " ++ toString mv ++ ".",
          fun t => by simp [eventsBody, hres, hf, hdat, hmat, hmt, hh, ha, hs, hev, het],
          Or.inr (marked_append _ _ _ (marked_append _ _ _ (by decide)))⟩)
    · exact Or.inr (Or.inl ⟨"⚠️ No match details returned for the given match_id.",
        fun t => by simp [eventsBody, hres, hf, hdat, hmat, hmt], Or.inr (by decide)⟩)
  · cases hmsg : pyGetStr payload "message" "Korastats API returned an error." with
    | none => exact Or.inl (fun t => by simp [eventsBody, hres, hf, hmsg])
    | some m =>
        exact Or.inr (Or.inl ⟨"❌ API Error: " ++ m,
          fun t => by simp [eventsBody, hres, hf, hmsg],
          Or.inl (marked_append _ _ _ (by decide))⟩)

/-- Shape of `list_seasons` outputs over all timestamps. -/
theorem list_seasons_shape (pn ps key : String) (net : HttpOutcome) :
    (∀ t, (list_seasons pn ps key net t).output = none) ∨
    (∃ s, (∀ t, (list_seasons pn ps key net t).output = some s) ∧
      (marked "❌" s ∨ marked "⚠️" s)) ∨
    (∃ p, (∀ t, (list_seasons pn ps key net t).output = some (p ++ t)) ∧ marked "📊" p) := by
  cases e1 : parseClampedArg pn 1 "page_number" with
  | inl e => exact Or.inr (Or.inl ⟨e, fun t => by simp [list_seasons, e1, noCallResult],
      Or.inl (parseClampedArg_err_marked e1)⟩)
  | inr a =>
  cases e2 : parseClampedArg ps 20 "page_size" with
  | inl e => exact Or.inr (Or.inl ⟨e, fun t => by simp [list_seasons, e1, e2, noCallResult],
      Or.inl (parseClampedArg_err_marked e2)⟩)
  | inr b =>
  cases ho : (_perform_request key "SeasonList"
      [("page_number", toString a), ("page_size", toString b)] net).outcome with
  | inl err => exact Or.inr (Or.inl ⟨err,
      fun t => by rw [list_seasons_eq pn ps key t net a b e1 e2]; simp [ho],
      Or.inl (perform_err_marked ho)⟩)
  | inr payload =>
      rcases seasonsBody_shape payload with hb | ⟨s, hs, hm⟩ | ⟨p, hp, hm⟩
      · exact Or.inl (fun t => by
          rw [list_seasons_eq pn ps key t net a b e1 e2]; simp [ho, hb t])
      · exact Or.inr (Or.inl ⟨s, fun t => by
          rw [list_seasons_eq pn ps key t net a b e1 e2]; simp [ho, hs t], hm⟩)
      · exact Or.inr (Or.inr ⟨p, fun t => by
          rw [list_seasons_eq pn ps key t net a b e1 e2]; simp [ho, hp t], hm⟩)

/-- Shape of `list_season_matches` outputs over all timestamps. -/
theorem list_season_matches_shape (sid pn ps key : String) (net : HttpOutcome) :
    (∀ t, (list_season_matches sid pn ps key net t).output = none) ∨
    (∃ s, (∀ t, (list_season_matches sid pn ps key net t).output = some s) ∧
      (marked "❌" s ∨ marked "⚠️" s)) ∨
    (∃ p, (∀ t, (list_season_matches sid pn ps key net t).output = some (p ++ t)) ∧
      marked "📊" p) := by
  cases e0 : parseIdArg sid "season_id" with
  | inl e => exact Or.inr (Or.inl ⟨e, fun t => by simp [list_season_matches, e0, noCallResult],
      Or.inl (parseIdArg_err_marked e0)⟩)
  | inr sv =>
  cases e1 : parseClampedArg pn 1 "page_number" with
  | inl e => exact Or.inr (Or.inl ⟨e,
      fun t => by simp [list_season_matches, e0, e1, noCallResult],
      Or.inl (parseClampedArg_err_marked e1)⟩)
  | inr a =>
  cases e2 : parseClampedArg ps 20 "page_size" with
  | inl e => exact Or.inr (Or.inl ⟨e,
      fun t => by simp [list_season_matches, e0, e1, e2, noCallResult],
      Or.inl (parseClampedArg_err_marked e2)⟩)
  | inr b =>
  cases ho : (_perform_request key "SeasonMatchList"
      [("season_id", toString sv), ("page_number", toString a),
       ("page_size", toString b)] net).outcome with
  | inl err => exact Or.inr (Or.inl ⟨err,
      fun t => by rw [list_season_matches_eq sid pn ps key t net sv a b e0 e1 e2]; simp [ho],
      Or.inl (perform_err_marked ho)⟩)
  | inr payload =>
      rcases matchesBody_shape payload a with hb | ⟨s, hs, hm⟩ | ⟨p, hp, hm⟩
      · exact Or.inl (fun t => by
          rw [list_season_matches_eq sid pn ps key t net sv a b e0 e1 e2]; simp [ho, hb t])
      · exact Or.inr (Or.inl ⟨s, fun t => by
          rw [list_season_matches_eq sid pn ps key t net sv a b e0 e1 e2]; simp [ho, hs t], hm⟩)
      · exact Or.inr (Or.inr ⟨p, fun t => by
          rw [list_season_matches_eq sid pn ps key t net sv a b e0 e1 e2]; simp [ho, hp t], hm⟩)

/-- Shape of `get_match_events` outputs over all timestamps. -/
theorem get_match_events_shape (mid lim key : String) (net : HttpOutcome) :
    (∀ t, (get_match_events mid lim key net t).output = none) ∨
    (∃ s, (∀ t, (get_match_events mid lim key net t).output = some s) ∧
      (marked "❌" s ∨ marked "⚠️" s)) ∨
    (∃ p, (∀ t, (get_match_events mid lim key net t).output = some (p ++ t)) ∧
      marked "📊" p) := by
  cases e0 : parseIdArg mid "match_id" with
  | inl e => exact Or.inr (Or.inl ⟨e, fun t => by simp [get_match_events, e0, noCallResult],
      Or.inl (parseIdArg_err_marked e0)⟩)
  | inr mv =>
  cases e1 : parseLimitArg lim with
  | inl e => exact Or.inr (Or.inl ⟨e, fun t => by simp [get_match_events, e0, e1, noCallResult],
      Or.inl (parseLimitArg_err_marked e1)⟩)
  | inr lv =>
  cases ho : (_perform_request key "MatchEventList"
      [("match_id", toString mv)] net).outcome with
  | inl err => exact Or.inr (Or.inl ⟨err,
      fun t => by rw [get_match_events_eq mid lim key t net mv lv e0 e1]; simp [ho],
      Or.inl (perform_err_marked ho)⟩)
  | inr payload =>
      rcases eventsBody_shape payload mv lv with hb | ⟨s, hs, hm⟩ | ⟨p, hp, hm⟩
      · exact Or.inl (fun t => by
          rw [get_match_events_eq mid lim key t net mv lv e0 e1]; simp [ho, hb t])
      · exact Or.inr (Or.inl ⟨s, fun t => by
          rw [get_match_events_eq mid lim key t net mv lv e0 e1]; simp [ho, hs t], hm⟩)
      · exact Or.inr (Or.inr ⟨p, fun t => by
          rw [get_match_events_eq mid lim key t net mv lv e0 e1]; simp [ho, hp t], hm⟩)

/-- Claim C8: for fixed validated inputs and a fixed parsed response, two
invocations differing only in the generated timestamp return identical
strings, or strings differing exactly in the trailing timestamp substring —
each tool output is a pure function of (input, response) plus the
timestamp. -/
theorem C8_determinism (pn ps sid mid lim key : String) (net1 net2 net3 : HttpOutcome)
    (t1 t2 : String) :
    ((list_seasons pn ps key net1 t1).output = (list_seasons pn ps key net1 t2).output ∨
     ∃ p, (list_seasons pn ps key net1 t1).output = some (p ++ t1) ∧
          (list_seasons pn ps key net1 t2).output = some (p ++ t2)) ∧
    ((list_season_matches sid pn ps key net2 t1).output =
       (list_season_matches sid pn ps key net2 t2).output ∨
     ∃ p, (list_season_matches sid pn ps key net2 t1).output = some (p ++ t1) ∧
          (list_season_matches sid pn ps key net2 t2).output = some (p ++ t2)) ∧
    ((get_match_events mid lim key net3 t1).output =
       (get_match_events mid lim key net3 t2).output ∨
     ∃ p, (get_match_events mid lim key net3 t1).output = some (p ++ t1) ∧
          (get_match_events mid lim key net3 t2).output = some (p ++ t2)) := by
  refine ⟨?_, ?_, ?_⟩
  · rcases list_seasons_shape pn ps key net1 with h | ⟨s, hs, _⟩ | ⟨p, hp, _⟩
    · exact Or.inl ((h t1).trans (h t2).symm)
    · exact Or.inl ((hs t1).trans (hs t2).symm)
    · exact Or.inr ⟨p, hp t1, hp t2⟩
  · rcases list_season_matches_shape sid pn ps key net2 with h | ⟨s, hs, _⟩ | ⟨p, hp, _⟩
    · exact Or.inl ((h t1).trans (h t2).symm)
    · exact Or.inl ((hs t1).trans (hs t2).symm)
    · exact Or.inr ⟨p, hp t1, hp t2⟩
  · rcases get_match_events_shape mid lim key net3 with h | ⟨s, hs, _⟩ | ⟨p, hp, _⟩
    · exact Or.inl ((h t1).trans (h t2).symm)
    · exact Or.inl ((hs t1).trans (hs t2).symm)
    · exact Or.inr ⟨p, hp t1, hp t2⟩

/-- Claim C7: every string any tool returns starts with exactly one of the
three category markers (`❌` error, `⚠️` empty-result warning, `📊` success
report — mutually exclusive since the glyphs differ), and a successful call
whose unwrapped record list is empty yields the `⚠️`-prefixed warning,
distinct from both the error and success shapes. -/
theorem C7_markers (pn0 ps0 sid0 mid0 lim0 key0 now0 : String) (a0 b0 s0 mv0 lv0 : Int)
    (pfs rfs ofs dfs efs mfs : List (String × Json)) (home0 away0 status0 : String)
    (hk : ¬ pyStrip key0 = "")
    (h1 : parseClampedArg pn0 1 "page_number" = Sum.inr a0)
    (h2 : parseClampedArg ps0 20 "page_size" = Sum.inr b0)
    (h0 : parseIdArg sid0 "season_id" = Sum.inr s0)
    (h3 : parseIdArg mid0 "match_id" = Sum.inr mv0)
    (h4 : parseLimitArg lim0 = Sum.inr lv0)
    (hroot : (lookupJ pfs "root").getD (Json.obj []) = Json.obj rfs)
    (hres : ((lookupJ rfs "result").getD Json.null).isTruthy = true)
    (hobj : (lookupJ rfs "object").getD (Json.obj []) = Json.obj ofs)
    (hdata : ((lookupJ ofs "Data").getD (Json.arr [])).isTruthy = false)
    (hres3 : ((lookupJ dfs "result").getD Json.null).isTruthy = true)
    (hdat3 : (lookupJ dfs "data").getD (Json.obj []) = Json.obj efs)
    (hmat3 : (lookupJ efs "match").getD Json.null = Json.obj mfs)
    (hmfs : mfs ≠ [])
    (hh : pyOrGetStr (Json.obj mfs) "home" "name" "Home" = some home0)
    (ha : pyOrGetStr (Json.obj mfs) "away" "name" "Away" = some away0)
    (hst : pyOrGetStr (Json.obj mfs) "status" "strStatus" "Unknown" = some status0)
    (hev : ((lookupJ mfs "events").getD (Json.arr [])).isTruthy = false) :
    (∀ pn ps key net now s, (list_seasons pn ps key net now).output = some s → oneMarker s) ∧
    (∀ sid pn ps key net now s,
      (list_season_matches sid pn ps key net now).output = some s → oneMarker s) ∧
    (∀ mid lim key net now s,
      (get_match_events mid lim key net now).output = some s → oneMarker s) ∧
    (∀ s, ¬ (marked "❌" s ∧ marked "⚠️" s) ∧ ¬ (marked "❌" s ∧ marked "📊" s) ∧
      ¬ (marked "⚠️" s ∧ marked "📊" s)) ∧
    ((list_seasons pn0 ps0 key0 (HttpOutcome.response 200 (some (Json.obj pfs))) now0).output =
       some "⚠️ No seasons found for the requested page." ∧
     (list_season_matches sid0 pn0 ps0 key0
         (HttpOutcome.response 200 (some (Json.obj pfs))) now0).output =
       some "⚠️ No matches found for the supplied season." ∧
     (get_match_events mid0 lim0 key0
         (HttpOutcome.response 200 (some (Json.obj dfs))) now0).output =
       some ("⚠️ No events available for match " ++ toString mv0 ++ ".")) := by
  refine ⟨?_, ?_, ?_, markers_exclusive, ?_, ?_, ?_⟩
  · intro pn ps key net now s hsome
    rcases list_seasons_shape pn ps key net with h | ⟨w, hw, hm⟩ | ⟨p, hp, hm⟩
    · rw [h now] at hsome; exact Option.noConfusion hsome
    · obtain rfl : w = s := by rw [hw now] at hsome; exact Option.some_injective _ hsome
      rcases hm with hm | hm
      · exact Or.inl hm
      · exact Or.inr (Or.inl hm)
    · obtain rfl : p ++ now = s := by rw [hp now] at hsome; exact Option.some_injective _ hsome
      exact Or.inr (Or.inr (marked_append _ _ _ hm))
  · intro sid pn ps key net now s hsome
    rcases list_season_matches_shape sid pn ps key net with h | ⟨w, hw, hm⟩ | ⟨p, hp, hm⟩
    · rw [h now] at hsome; exact Option.noConfusion hsome
    · obtain rfl : w = s := by rw [hw now] at hsome; exact Option.some_injective _ hsome
      rcases hm with hm | hm
      · exact Or.inl hm
      · exact Or.inr (Or.inl hm)
    · obtain rfl : p ++ now = s := by rw [hp now] at hsome; exact Option.some_injective _ hsome
      exact Or.inr (Or.inr (marked_append _ _ _ hm))
  · intro mid lim key net now s hsome
    rcases get_match_events_shape mid lim key net with h | ⟨w, hw, hm⟩ | ⟨p, hp, hm⟩
    · rw [h now] at hsome; exact Option.noConfusion hsome
    · obtain rfl : w = s := by rw [hw now] at hsome; exact Option.some_injective _ hsome
      rcases hm with hm | hm
      · exact Or.inl hm
      · exact Or.inr (Or.inl hm)
    · obtain rfl : p ++ now = s := by rw [hp now] at hsome; exact Option.some_injective _ hsome
      exact Or.inr (Or.inr (marked_append _ _ _ hm))
  · rw [list_seasons_eq pn0 ps0 key0 now0 _ a0 b0 h1 h2]
    simp only [perform_payload _ _ _ 200 _ hk (by omega)]
    exact seasonsBody_empty pfs rfs ofs now0 hroot hres hobj hdata
  · rw [list_season_matches_eq sid0 pn0 ps0 key0 now0 _ s0 a0 b0 h0 h1 h2]
    simp only [perform_payload _ _ _ 200 _ hk (by omega)]
    exact matchesBody_empty pfs rfs ofs a0 now0 hroot hres hobj hdata
  · rw [get_match_events_eq mid0 lim0 key0 now0 _ mv0 lv0 h3 h4]
    simp only [perform_payload _ _ _ 200 _ hk (by omega)]
    exact eventsBody_noEvents dfs efs mfs mv0 lv0 now0 home0 away0 status0
      hres3 hdat3 hmat3 hmfs hh ha hst hev

/-- Witness for C7: concrete empty-data payloads produce the warnings. -/
theorem C7_markers_witness :
    (list_seasons "" "" "k" (HttpOutcome.response 200 (some (Json.obj
        [("root", Json.obj [("result", Json.bool true),
          ("object", Json.obj [("Data", Json.arr [])])])]))) "TS").output =
      some "⚠️ No seasons found for the requested page." :=
  (C7_markers "" "" "5" "7" "" "k" "TS" 1 20 5 7 10
    [("root", Json.obj [("result", Json.bool true),
      ("object", Json.obj [("Data", Json.arr [])])])]
    [("result", Json.bool true), ("object", Json.obj [("Data", Json.arr [])])]
    [("Data", Json.arr [])]
    [("result", Json.bool true), ("data", Json.obj [("match", Json.obj
      [("events", Json.arr [])])])]
    [("match", Json.obj [("events", Json.arr [])])]
    [("events", Json.arr [])]
    "Home" "Away" "Unknown"
    (by decide) (by decide) (by decide) (by decide) (by decide) (by decide)
    rfl (by decide) rfl (by decide) (by decide) rfl rfl (by decide)
    (by decide) (by decide) (by decide) (by decide)).2.2.2.2.1
